import Mathlib

/-!
# fold.backend — verification of the auth/session core

Shallow embedding of the repository's authentication core:

* `src/src/utils/jwt.ts` — token codec (`parseDuration`, `generateAccessToken`,
  `generateRefreshToken`, `generateTokenPair`, `verifyAccessToken`,
  `verifyRefreshToken`, `getExpirationDate`);
* `src/unnamed/part_008` (the auth service) — `register`, `login`,
  `refreshTokens`, `logout`, `logoutAll`, `changePassword`,
  `storeRefreshToken`, `revokeAllUserTokens`;
* `src/src/middleware/rateLimit.ts` — fixed-window rate limiter.

Modelling conventions:

* Time is one abstract millisecond clock (`Nat`).  All `new Date()` calls
  inside a single service call are modelled as the same instant `now`.
  jsonwebtoken's rounding of `iat`/`exp` to whole seconds is not modelled;
  `exp` is kept on the same millisecond clock.
* A signed JWT is modelled as the (payload, signing secret, issue instant,
  expiry) it observably carries: two `jwt.sign` calls with the same
  payload, secret and instant produce the identical token string, and
  distinct instants produce distinct strings (the `iat` claim differs).
  `jwt.verify` succeeds iff the secret matches and the token is unexpired;
  a thrown verification error is modelled as `none`.
* JavaScript `parseInt(s, 10)` is modelled exactly on sign/whitespace/digit
  prefix handling, with `none` playing the role of `NaN`; number values are
  modelled as exact integers (IEEE-double precision loss is not modelled).
  A `Date` built from a `NaN` offset (Invalid Date) is modelled as `none`;
  every `<`/`>` comparison against it is `false`, as in JS.
* The Prisma store is a `Db` structure of lists; `findUnique`/`findFirst`
  are `List.find?`, `updateMany` is `List.map` guarded by the `where`
  predicate, `deleteMany` is `List.filter`, `create` appends a row with a
  fresh numeric id and fails (P2002) when the unique `token` column is
  violated.  `orderBy createdAt desc` is modelled as a stable sort.
* Every service operation returns its outcome together with the final
  store state, since some paths mutate the store before throwing.
-/

namespace Fold

/-! ## Token codec (src/src/utils/jwt.ts) -/

/-- JavaScript `parseInt(s, 10)`: skip leading whitespace, one optional
sign, then the longest digit prefix; `none` models `NaN` (no digits). -/
def parseIntJS (s : List Char) : Option Int :=
  let t := s.dropWhile Char.isWhitespace
  match t with
  | '-' :: rest =>
    let ds := rest.takeWhile Char.isDigit
    if ds.isEmpty then none else some (-(digitsVal ds : Int))
  | '+' :: rest =>
    let ds := rest.takeWhile Char.isDigit
    if ds.isEmpty then none else some ((digitsVal ds : Int))
  | _ =>
    let ds := t.takeWhile Char.isDigit
    if ds.isEmpty then none else some ((digitsVal ds : Int))
where
  /-- Decimal value of a digit string, most significant first. -/
  digitsVal (ds : List Char) : Nat :=
    ds.foldl (fun acc c => acc * 10 + (c.toNat - 48)) 0

/-- `parseDuration` (jwt.ts lines 8–24): `duration.slice(-1)` is the unit,
`parseInt(duration.slice(0, -1), 10)` the value; unknown units fall back to
7 days.  `none` models the `NaN` result (valid unit, unparsable value). -/
def parseDuration (duration : String) : Option Int :=
  let unit := duration.data.getLast?
  let value := parseIntJS duration.data.dropLast
  match unit with
  | some 's' => value
  | some 'm' => value.map (· * 60)
  | some 'h' => value.map (· * 60 * 60)
  | some 'd' => value.map (· * 24 * 60 * 60)
  | _ => some (7 * 24 * 60 * 60)

/-- The JWT claims this codec embeds (src/unnamed/part_015, `JwtPayload`). -/
structure JwtPayload where
  userId : String
  email : String
  type : String
deriving DecidableEq, Repr

/-- A signed token: the payload, the signing secret, the issue instant and
the expiry it observably carries (see the module comment). -/
structure Jwt where
  payload : JwtPayload
  secret : String
  iat : Nat
  exp : Option Int
deriving DecidableEq, Repr

/-- The environment slice the codec and service read (config/env.ts). -/
structure Env where
  JWT_ACCESS_SECRET : String
  JWT_REFRESH_SECRET : String
  JWT_ACCESS_EXPIRES_IN : String
  JWT_REFRESH_EXPIRES_IN : String
deriving DecidableEq, Repr

/-- `generateAccessToken` (jwt.ts lines 29–41). -/
def generateAccessToken (env : Env) (now : Nat) (userId email : String) : Jwt :=
  { payload := { userId := userId, email := email, type := "access" }
    secret := env.JWT_ACCESS_SECRET
    iat := now
    exp := (parseDuration env.JWT_ACCESS_EXPIRES_IN).map fun s => (now : Int) + s * 1000 }

/-- `generateRefreshToken` (jwt.ts lines 46–58). -/
def generateRefreshToken (env : Env) (now : Nat) (userId email : String) : Jwt :=
  { payload := { userId := userId, email := email, type := "refresh" }
    secret := env.JWT_REFRESH_SECRET
    iat := now
    exp := (parseDuration env.JWT_REFRESH_EXPIRES_IN).map fun s => (now : Int) + s * 1000 }

/-- `TokenPair` (src/unnamed/part_015). -/
structure TokenPair where
  accessToken : Jwt
  refreshToken : Jwt
deriving DecidableEq, Repr

/-- `generateTokenPair` (jwt.ts lines 63–68). -/
def generateTokenPair (env : Env) (now : Nat) (userId email : String) : TokenPair :=
  { accessToken := generateAccessToken env now userId email
    refreshToken := generateRefreshToken env now userId email }

/-- `jwt.verify(token, secret)`: signature check and expiry check; a thrown
error is `none`. -/
def verifyJwt (secret : String) (now : Nat) (t : Jwt) : Option JwtPayload :=
  if t.secret = secret then
    match t.exp with
    | some e => if (now : Int) < e then some t.payload else none
    | none => none
  else none

/-- `verifyAccessToken` (jwt.ts lines 73–83). -/
def verifyAccessToken (env : Env) (now : Nat) (t : Jwt) : Option JwtPayload :=
  match verifyJwt env.JWT_ACCESS_SECRET now t with
  | none => none
  | some payload => if payload.type ≠ "access" then none else some payload

/-- `verifyRefreshToken` (jwt.ts lines 88–98). -/
def verifyRefreshToken (env : Env) (now : Nat) (t : Jwt) : Option JwtPayload :=
  match verifyJwt env.JWT_REFRESH_SECRET now t with
  | none => none
  | some payload => if payload.type ≠ "refresh" then none else some payload

/-- `getExpirationDate` (jwt.ts lines 103–107): `now + seconds * 1000`;
`none` models the Invalid Date produced by a `NaN` duration. -/
def getExpirationDate (duration : String) (now : Nat) : Option Int :=
  (parseDuration duration).map fun s => (now : Int) + s * 1000

/-- JS `date < now` where `date` may be an Invalid Date (always `false`). -/
def dateBefore : Option Int → Nat → Bool
  | none, _ => false
  | some a, n => a < (n : Int)

/-- JS `date > now` where `date` may be an Invalid Date (always `false`). -/
def dateAfter : Option Int → Nat → Bool
  | none, _ => false
  | some a, n => (n : Int) < a

/-! ## Credential verifier -/

/-- Modelled from the spec: the password utility
(`src/utils/password.ts`, imported by the auth service) is not among the
provided sources.  Spec §4.2: `hash` is a salted, one-way function and
`compare(plaintext, hash)` is the hashing primitive's own verify routine —
true exactly when the hash was produced from that plaintext; it never
throws.  A hash is modelled abstractly as the plaintext it commits to
together with its salt. -/
structure PasswordHash where
  plain : String
  salt : Nat
deriving DecidableEq, Repr

/-- Modelled from the spec: `hashPassword` (spec §4.2 `hash`). -/
def hashPassword (salt : Nat) (plaintext : String) : PasswordHash :=
  { plain := plaintext, salt := salt }

/-- Modelled from the spec: `comparePassword` (spec §4.2 `compare`). -/
def comparePassword (plaintext : String) (h : PasswordHash) : Bool :=
  h.plain == plaintext

/-! ## Data model (Prisma store) -/

/-- `AppError` (src/src/middleware/errorHandler.ts): message + HTTP status. -/
structure AppError where
  message : String
  statusCode : Nat
deriving DecidableEq, Repr

/-- A `User` row (fields the auth service reads and writes). -/
structure User where
  id : String
  email : String
  passwordHash : Option PasswordHash
  name : Option String
  avatarUrl : Option String
  theme : Option String
  status : String
  authProvider : Option String
  lastLoginAt : Option Nat
  createdAt : Nat
deriving DecidableEq, Repr

/-- A `RefreshToken` row.  Row ids are fresh naturals drawn from
`Db.nextId` (Prisma uses cuids; only freshness matters). -/
structure RefreshTokenRecord where
  id : Nat
  token : Jwt
  userId : String
  createdAt : Nat
  expiresAt : Option Int
  revokedAt : Option Nat
  userAgent : Option String
  ipAddress : Option String
deriving DecidableEq, Repr

/-- The relational store. -/
structure Db where
  users : List User
  refreshTokens : List RefreshTokenRecord
  nextId : Nat
deriving DecidableEq, Repr

/-- Store well-formedness: row ids are distinct and below the id supply,
and the `token` column's unique constraint holds. -/
def Db.Wf (db : Db) : Prop :=
  (db.refreshTokens.map (·.id)).Nodup ∧
  (∀ r ∈ db.refreshTokens, r.id < db.nextId) ∧
  (db.refreshTokens.map (·.token)).Nodup

instance (db : Db) : Decidable db.Wf := by
  unfold Db.Wf; infer_instance

/-- Spec §3: a record is live iff `revokedAt` is null and `expiresAt > now`. -/
def liveRecord (now : Nat) (r : RefreshTokenRecord) : Bool :=
  r.revokedAt == none && dateAfter r.expiresAt now

/-! ## Session store helpers (src/unnamed/part_008 lines 335–372) -/

/-- `prisma.refreshToken.update({where: {id}, data: {revokedAt: new Date()}})`. -/
def revokeTokenById (now : Nat) (id : Nat) (db : Db) : Db :=
  { db with
    refreshTokens := db.refreshTokens.map fun r =>
      if r.id == id then { r with revokedAt := some now } else r }

/-- `revokeAllUserTokens` (part_008 lines 367–372):
`updateMany({where: {userId, revokedAt: null}, data: {revokedAt: now}})`. -/
def revokeAllUserTokens (now : Nat) (userId : String) (db : Db) : Db :=
  { db with
    refreshTokens := db.refreshTokens.map fun r =>
      if r.userId == userId && r.revokedAt == none
      then { r with revokedAt := some now } else r }

/-- `prisma.refreshToken.delete({where: {id}})` (called on a found row). -/
def deleteTokenById (id : Nat) (db : Db) : Db :=
  { db with refreshTokens := db.refreshTokens.filter fun r => !(r.id == id) }

/-- Stable insertion step for `orderBy: {createdAt: "desc"}`. -/
def insertByCreatedDesc (r : RefreshTokenRecord) :
    List RefreshTokenRecord → List RefreshTokenRecord
  | [] => [r]
  | x :: xs =>
    if x.createdAt ≤ r.createdAt then r :: x :: xs
    else x :: insertByCreatedDesc r xs

/-- `orderBy: {createdAt: "desc"}` modelled as a stable sort. -/
def sortByCreatedDesc : List RefreshTokenRecord → List RefreshTokenRecord
  | [] => []
  | x :: xs => insertByCreatedDesc x (sortByCreatedDesc xs)

/-- `storeRefreshToken` (part_008 lines 337–365): insert the new row
(P2002 if the unique `token` column is violated), then delete every
non-revoked row of that user beyond the 10 newest. -/
def storeRefreshToken (env : Env) (now : Nat) (userId : String) (token : Jwt)
    (userAgent ipAddress : Option String) (db : Db) : Except AppError Db :=
  if db.refreshTokens.any (fun r => r.token == token) then
    .error { message := "Unique constraint failed on the fields: (token)", statusCode := 500 }
  else
    let record : RefreshTokenRecord :=
      { id := db.nextId
        token := token
        userId := userId
        createdAt := now
        expiresAt := getExpirationDate env.JWT_REFRESH_EXPIRES_IN now
        revokedAt := none
        userAgent := userAgent
        ipAddress := ipAddress }
    let db₁ : Db :=
      { db with refreshTokens := db.refreshTokens ++ [record], nextId := db.nextId + 1 }
    let overCap :=
      (sortByCreatedDesc (db₁.refreshTokens.filter fun r =>
        r.userId == userId && r.revokedAt == none)).drop 10
    .ok { db₁ with
          refreshTokens := db₁.refreshTokens.filter fun r =>
            !(overCap.any fun t => t.id == r.id) }

/-! ## Session manager (src/unnamed/part_008) -/

/-- `RegisterInput` / `LoginInput` / `ChangePasswordInput`
(src/src/validators/schemas.ts, payload fields only). -/
structure RegisterInput where
  email : String
  password : String
  name : Option String
deriving DecidableEq, Repr

structure LoginInput where
  email : String
  password : String
deriving DecidableEq, Repr

structure ChangePasswordInput where
  currentPassword : String
  newPassword : String
deriving DecidableEq, Repr

/-- `AuthResult` (part_008 lines 14–26); the user is returned without its
password hash (`userSelectFields` excludes it). -/
structure AuthResult where
  user : User
  tokens : TokenPair
deriving DecidableEq, Repr

/-- `register` (part_008 lines 43–79).  `salt` feeds the modelled password
hash; the created user's id is drawn from the id supply. -/
def register (env : Env) (now salt : Nat) (data : RegisterInput)
    (userAgent ipAddress : Option String) (db : Db) :
    Except AppError AuthResult × Db :=
  match db.users.find? (fun u => u.email == data.email) with
  | some _ => (.error { message := "Email already registered", statusCode := 409 }, db)
  | none =>
    let passwordHash := hashPassword salt data.password
    let user : User :=
      { id := "user-" ++ toString db.nextId
        email := data.email
        passwordHash := some passwordHash
        name := data.name
        avatarUrl := none
        theme := none
        status := "active"
        authProvider := some "local"
        lastLoginAt := none
        createdAt := now }
    let db₁ : Db := { db with users := db.users ++ [user], nextId := db.nextId + 1 }
    let tokens := generateTokenPair env now user.id user.email
    match storeRefreshToken env now user.id tokens.refreshToken userAgent ipAddress db₁ with
    | .ok db₂ => (.ok { user := { user with passwordHash := none }, tokens := tokens }, db₂)
    | .error e => (.error e, db₁)

/-- `login` (part_008 lines 84–144). -/
def login (env : Env) (now : Nat) (data : LoginInput)
    (userAgent ipAddress : Option String) (db : Db) :
    Except AppError AuthResult × Db :=
  match db.users.find? (fun u => u.email == data.email) with
  | none => (.error { message := "Invalid email or password", statusCode := 401 }, db)
  | some user =>
    match user.passwordHash with
    | none =>
      (.error { message := "Account uses social login. Please sign in with your provider."
                statusCode := 401 }, db)
    | some hash =>
      if !(comparePassword data.password hash) then
        (.error { message := "Invalid email or password", statusCode := 401 }, db)
      else if user.status ≠ "active" then
        (.error { message := "Account is " ++ user.status, statusCode := 403 }, db)
      else
        let db₁ : Db :=
          { db with users := db.users.map fun u =>
              if u.id == user.id then { u with lastLoginAt := some now } else u }
        let tokens := generateTokenPair env now user.id user.email
        match storeRefreshToken env now user.id tokens.refreshToken userAgent ipAddress db₁ with
        | .ok db₂ =>
          (.ok { user := { user with passwordHash := none }, tokens := tokens }, db₂)
        | .error e => (.error e, db₁)

/-- The tail of `refreshTokens` (part_008 lines 204–231) after the
`findUnique` read — the code past the first store round-trip, acting on the
read snapshot `storedToken`.  Split out at the await boundary so that
interleavings of concurrent calls can be expressed. -/
def refreshTokensResume (env : Env) (now : Nat) (payload : JwtPayload)
    (storedToken : RefreshTokenRecord) (userStatus : Option String)
    (userAgent ipAddress : Option String) (db : Db) :
    Except AppError TokenPair × Db :=
  if storedToken.revokedAt.isSome then
    (.error { message := "Refresh token has been revoked", statusCode := 401 },
     revokeAllUserTokens now storedToken.userId db)
  else if dateBefore storedToken.expiresAt now then
    (.error { message := "Refresh token has expired", statusCode := 401 },
     deleteTokenById storedToken.id db)
  else
    match userStatus with
    | none =>
      -- a required relation with no row: Prisma would fail the include
      (.error { message := "Internal server error", statusCode := 500 }, db)
    | some status =>
      if status ≠ "active" then
        (.error { message := "Account is " ++ status, statusCode := 403 }, db)
      else
        let db₁ := revokeTokenById now storedToken.id db
        let tokens := generateTokenPair env now payload.userId payload.email
        match storeRefreshToken env now payload.userId tokens.refreshToken
            userAgent ipAddress db₁ with
        | .ok db₂ => (.ok tokens, db₂)
        | .error e => (.error e, db₁)

/-- `refreshTokens` (part_008 lines 182–232): verify, read the stored row
(with the owning user's status included), then run the rotation tail. -/
def refreshTokens (env : Env) (now : Nat) (refreshToken : Jwt)
    (userAgent ipAddress : Option String) (db : Db) :
    Except AppError TokenPair × Db :=
  match verifyRefreshToken env now refreshToken with
  | none => (.error { message := "Invalid or expired refresh token", statusCode := 401 }, db)
  | some payload =>
    match db.refreshTokens.find? (fun r => r.token == refreshToken) with
    | none => (.error { message := "Refresh token not found", statusCode := 401 }, db)
    | some storedToken =>
      refreshTokensResume env now payload storedToken
        ((db.users.find? (fun u => u.id == storedToken.userId)).map (·.status))
        userAgent ipAddress db

/-- `logout` (part_008 lines 237–248). -/
def logout (now : Nat) (refreshToken : Jwt) (db : Db) : Db :=
  match db.refreshTokens.find? (fun r => r.token == refreshToken) with
  | some storedToken =>
    if storedToken.revokedAt.isNone then revokeTokenById now storedToken.id db else db
  | none => db

/-- `logoutAll` (part_008 lines 253–255). -/
def logoutAll (now : Nat) (userId : String) (db : Db) : Db :=
  revokeAllUserTokens now userId db

/-- `changePassword` (part_008 lines 260–292). -/
def changePassword (now salt : Nat) (userId : String) (data : ChangePasswordInput)
    (db : Db) : Except AppError Unit × Db :=
  match db.users.find? (fun u => u.id == userId) with
  | none => (.error { message := "User not found", statusCode := 404 }, db)
  | some user =>
    match user.passwordHash with
    | none =>
      (.error { message := "Account uses social login. Cannot change password."
                statusCode := 400 }, db)
    | some hash =>
      if !(comparePassword data.currentPassword hash) then
        (.error { message := "Current password is incorrect", statusCode := 401 }, db)
      else
        let newHash := hashPassword salt data.newPassword
        let db₁ : Db :=
          { db with users := db.users.map fun u =>
              if u.id == userId then { u with passwordHash := some newHash } else u }
        (.ok (), revokeAllUserTokens now userId db₁)

/-! ## Rate limiter (src/src/middleware/rateLimit.ts) -/

/-- `RateLimitEntry` (rateLimit.ts lines 4–7). -/
structure RateLimitEntry where
  count : Nat
  resetTime : Nat
deriving DecidableEq, Repr

/-- The resolved options of one `rateLimit(...)` instance. -/
structure RateLimitOptions where
  windowMs : Nat
  maxRequests : Nat
  message : String
deriving DecidableEq, Repr

/-- A request's fate at the limiter. -/
inductive RateLimitDecision where
  | allowed
  | rejected (status : Nat) (message : String) (retryAfterSeconds : Nat)
deriving DecidableEq, Repr

/-- One request through the middleware (rateLimit.ts lines 38–68) for one
key: reset-or-increment the entry, then reject with 429 and
`Retry-After = ceil((resetTime - now) / 1000)` when over the maximum.
(The periodic `setInterval` cleanup only deletes entries whose `resetTime`
has passed, which this step already treats the same as an absent entry.) -/
def rateLimitStep (o : RateLimitOptions) (now : Nat) (st : Option RateLimitEntry) :
    RateLimitEntry × RateLimitDecision :=
  let entry : RateLimitEntry :=
    match st with
    | some e =>
      if e.resetTime ≤ now then { count := 1, resetTime := now + o.windowMs }
      else { count := e.count + 1, resetTime := e.resetTime }
    | none => { count := 1, resetTime := now + o.windowMs }
  (entry,
   if entry.count > o.maxRequests then
     .rejected 429 o.message ((entry.resetTime - now + 999) / 1000)
   else .allowed)

/-- A sequence of requests at the given instants, one key. -/
def runRateLimiter (o : RateLimitOptions) (st : Option RateLimitEntry) :
    List Nat → List RateLimitDecision
  | [] => []
  | t :: ts =>
    let (e, d) := rateLimitStep o t st
    d :: runRateLimiter o (some e) ts

/-- `authRateLimiter` (rateLimit.ts lines 74–78). -/
def authRateLimiter : RateLimitOptions :=
  { windowMs := 15 * 60 * 1000
    maxRequests := 10
    message := "Too many authentication attempts, please try again in 15 minutes" }

/-- `apiRateLimiter` (rateLimit.ts lines 83–86). -/
def apiRateLimiter : RateLimitOptions :=
  { windowMs := 60 * 1000
    maxRequests := 100
    message := "Too many requests, please try again later" }

/-! ## Helper lemmas -/

/-- The decimal accumulator fold agrees with `Nat.ofDigits` (little-endian,
hence the reverse). -/
theorem digitsVal_eq_ofDigits (ds : List Char) (acc : Nat) :
    ds.foldl (fun acc c => acc * 10 + (c.toNat - 48)) acc =
      acc * 10 ^ ds.length + Nat.ofDigits 10 ((ds.map fun c => c.toNat - 48).reverse) := by
  induction ds generalizing acc with
  | nil => simp [Nat.ofDigits]
  | cons c cs ih =>
    simp only [List.foldl_cons, List.map_cons, List.reverse_cons, List.length_cons]
    rw [ih, Nat.ofDigits_append]
    simp [Nat.ofDigits]
    ring

/-- The ten decimal digit characters. -/
def decDigits : List Char := ['0', '1', '2', '3', '4', '5', '6', '7', '8', '9']

theorem isDigit_of_mem_decDigits {c : Char} (h : c ∈ decDigits) : c.isDigit = true := by
  fin_cases h <;> decide

theorem not_isWhitespace_of_mem_decDigits {c : Char} (h : c ∈ decDigits) :
    c.isWhitespace = false := by
  fin_cases h <;> decide

theorem ne_sign_of_mem_decDigits {c : Char} (h : c ∈ decDigits) :
    c ≠ '-' ∧ c ≠ '+' := by
  fin_cases h <;> decide

/-- On a nonempty all-digit string, `parseIntJS` returns its decimal value. -/
theorem parseIntJS_digits (ds : List Char) (hne : ds ≠ [])
    (hd : ∀ c ∈ ds, c ∈ decDigits) :
    parseIntJS ds =
      some (Nat.ofDigits 10 ((ds.map fun c => c.toNat - 48).reverse) : Nat) := by
  obtain ⟨c, cs, rfl⟩ : ∃ c cs, ds = c :: cs := by
    cases ds with
    | nil => exact absurd rfl hne
    | cons c cs => exact ⟨c, cs, rfl⟩
  have hc := hd c (List.mem_cons_self c cs)
  have hall : List.takeWhile Char.isDigit (c :: cs) = c :: cs :=
    List.takeWhile_eq_self_iff.mpr fun x hx => isDigit_of_mem_decDigits (hd x hx)
  have hdrop : List.dropWhile Char.isWhitespace (c :: cs) = c :: cs := by
    rw [List.dropWhile_cons, not_isWhitespace_of_mem_decDigits hc]
    simp
  have hsign := ne_sign_of_mem_decDigits hc
  unfold parseIntJS
  rw [hdrop]
  have hval :
      parseIntJS.digitsVal (c :: cs) =
        Nat.ofDigits 10 (((c :: cs).map fun c => c.toNat - 48).reverse) := by
    unfold parseIntJS.digitsVal
    rw [digitsVal_eq_ofDigits]
    simp
  cases c with
  | mk v hv =>
    -- reduce the literal-pattern match without knowing the character
    simp only []
    split
    · next heq => cases heq; exact absurd rfl hsign.1
    · next heq => cases heq; exact absurd rfl hsign.2
    · rw [hall]
      simp [List.isEmpty, hval]

/-! ## C9 — parseDuration -/

/-- C9: `parseDuration` maps a digit string followed by unit `s`/`m`/`h`/`d`
to the corresponding number of seconds/minutes/hours/days expressed in
seconds, and for every string whose final character is not one of these
four units it returns the 7-day default of 604800 seconds. -/
theorem c9_parseDuration_units_and_default :
    (∀ ds : List Char, ds ≠ [] → (∀ c ∈ ds, c ∈ decDigits) →
      ∀ u k, (u, k) ∈ [('s', 1), ('m', 60), ('h', 3600), ('d', 86400)] →
        parseDuration (String.mk (ds ++ [u])) =
          some ((Nat.ofDigits 10 ((ds.map fun c => c.toNat - 48).reverse) : Nat) * k))
    ∧ (∀ s : String,
        (∀ u, s.data.getLast? = some u → u ∉ (['s', 'm', 'h', 'd'] : List Char)) →
        parseDuration s = some 604800) := by
  constructor
  · intro ds hne hd u k hmem
    have hlast : (String.mk (ds ++ [u])).data.getLast? = some u := by
      simp [List.getLast?_concat]
    have hdrop : (String.mk (ds ++ [u])).data.dropLast = ds := by
      simp [List.dropLast_concat]
    unfold parseDuration
    rw [hlast, hdrop, parseIntJS_digits ds hne hd]
    fin_cases hmem <;> simp <;> ring
  · intro s hu
    unfold parseDuration
    dsimp only
    split
    · next h => exact absurd (by simp) (hu _ h)
    · next h => exact absurd (by simp) (hu _ h)
    · next h => exact absurd (by simp) (hu _ h)
    · next h => exact absurd (by simp) (hu _ h)
    · rfl

/-- C9 witness: `parseDuration "42m" = 2520` and a string ending in a
non-unit character gets the 7-day default. -/
theorem c9_witness :
    parseDuration (String.mk (['4', '2'] ++ ['m'])) = some 2520 ∧
      parseDuration "banana" = some 604800 := by
  constructor
  · have h := c9_parseDuration_units_and_default.1 ['4', '2'] (by decide) (by decide)
      'm' 60 (by decide)
    rw [h]
    decide
  · refine c9_parseDuration_units_and_default.2 "banana" ?_
    intro u h
    simp only [show "banana".data = ['b', 'a', 'n', 'a', 'n', 'a'] from rfl] at h
    simp at h
    subst h
    decide

/-! ## C7 — token-kind separation -/

/-- C7: a freshly issued token verifies (within its TTL) under the verifier
of its own kind, yielding its userId, email and kind, while the verifier of
the other kind returns `none` — even though the token is validly signed. -/
theorem c7_verify_kind_separation (env : Env) (tIssue tVerify : Nat) (u e : String) :
    (∀ ex, (generateRefreshToken env tIssue u e).exp = some ex → (tVerify : Int) < ex →
      verifyRefreshToken env tVerify (generateRefreshToken env tIssue u e) =
        some { userId := u, email := e, type := "refresh" })
    ∧ verifyAccessToken env tVerify (generateRefreshToken env tIssue u e) = none
    ∧ (∀ ex, (generateAccessToken env tIssue u e).exp = some ex → (tVerify : Int) < ex →
      verifyAccessToken env tVerify (generateAccessToken env tIssue u e) =
        some { userId := u, email := e, type := "access" })
    ∧ verifyRefreshToken env tVerify (generateAccessToken env tIssue u e) = none := by
  refine ⟨?_, ?_, ?_, ?_⟩
  · intro ex hex hlt
    simp only [generateRefreshToken] at hex ⊢
    simp [verifyRefreshToken, verifyJwt, hex, hlt]
  · simp only [verifyAccessToken, verifyJwt, generateRefreshToken]
    split
    · rfl
    · next heq =>
      split at heq
      · split at heq
        · split at heq
          · cases heq; simp
          · cases heq
        · cases heq
      · cases heq
  · intro ex hex hlt
    simp only [generateAccessToken] at hex ⊢
    simp [verifyAccessToken, verifyJwt, hex, hlt]
  · simp only [verifyRefreshToken, verifyJwt, generateAccessToken]
    split
    · rfl
    · next heq =>
      split at heq
      · split at heq
        · split at heq
          · cases heq; simp
          · cases heq
        · cases heq
      · cases heq

/-- Concrete environment used by the witness theorems. -/
def testEnv : Env :=
  { JWT_ACCESS_SECRET := "asecret", JWT_REFRESH_SECRET := "rsecret"
    JWT_ACCESS_EXPIRES_IN := "15m", JWT_REFRESH_EXPIRES_IN := "7d" }

/-- C7 witness at a concrete environment and times. -/
theorem c7_witness :
    verifyRefreshToken testEnv 1000 (generateRefreshToken testEnv 0 "u1" "a@b.c") =
        some { userId := "u1", email := "a@b.c", type := "refresh" }
    ∧ verifyAccessToken testEnv 1000 (generateRefreshToken testEnv 0 "u1" "a@b.c") = none
    ∧ verifyAccessToken testEnv 1000 (generateAccessToken testEnv 0 "u1" "a@b.c") =
        some { userId := "u1", email := "a@b.c", type := "access" }
    ∧ verifyRefreshToken testEnv 1000 (generateAccessToken testEnv 0 "u1" "a@b.c") = none := by
  have h := c7_verify_kind_separation testEnv 0 1000 "u1" "a@b.c"
  exact ⟨h.1 (7 * 24 * 60 * 60 * 1000) (by decide) (by decide), h.2.1,
         h.2.2.1 (15 * 60 * 1000) (by decide) (by decide), h.2.2.2⟩

/-! ## C4 — non-active account blocks refresh with Forbidden -/

/-- C4: presenting a live (unrevoked, unexpired) stored refresh token whose
owning account's status is not `active` makes `refreshTokens` fail with 403
(`Forbidden`) and the status in the message — not 401 — leaving the store
unchanged. -/
theorem c4_refresh_suspended_forbidden (env : Env) (now : Nat) (T : Jwt)
    (ua ip : Option String) (db : Db) (payload : JwtPayload)
    (r : RefreshTokenRecord) (user : User)
    (hverify : verifyRefreshToken env now T = some payload)
    (hfind : db.refreshTokens.find? (fun rec => rec.token == T) = some r)
    (hlive : liveRecord now r = true)
    (huser : db.users.find? (fun u => u.id == r.userId) = some user)
    (hstatus : user.status ≠ "active") :
    refreshTokens env now T ua ip db =
      (.error { message := "Account is " ++ user.status, statusCode := 403 }, db) := by
  have hrev : r.revokedAt = none := by
    have := hlive
    unfold liveRecord at this
    cases h : r.revokedAt with
    | none => rfl
    | some t => rw [h] at this; simp at this
  have hexp : dateBefore r.expiresAt now = false := by
    have := hlive
    unfold liveRecord dateAfter at this
    cases h : r.expiresAt with
    | none => rw [h] at this; simp at this
    | some a =>
      rw [h] at this
      simp at this
      simp [dateBefore]
      omega
  simp [refreshTokens, hverify, hfind, refreshTokensResume, hrev, hexp, huser, hstatus]

/-- Concrete refresh token used by witness theorems. -/
def testToken : Jwt :=
  { payload := { userId := "u1", email := "a@b.c", type := "refresh" }
    secret := "rsecret", iat := 0, exp := some 604800000 }

/-- Concrete suspended account for the C4 witness. -/
def c4User : User :=
  { id := "u1", email := "a@b.c"
    passwordHash := some { plain := "Abcd1234!", salt := 0 }
    name := none, avatarUrl := none, theme := none
    status := "suspended", authProvider := some "local"
    lastLoginAt := none, createdAt := 0 }

/-- Concrete live record for the C4 witness. -/
def c4Record : RefreshTokenRecord :=
  { id := 0, token := testToken, userId := "u1", createdAt := 0
    expiresAt := some 604800000, revokedAt := none
    userAgent := none, ipAddress := none }

/-- Concrete store for the C4 witness. -/
def c4Db : Db := { users := [c4User], refreshTokens := [c4Record], nextId := 1 }

/-- C4 witness: a suspended account with a live token. -/
theorem c4_witness :
    refreshTokens testEnv 1000 testToken none none c4Db =
      (.error { message := "Account is suspended", statusCode := 403 }, c4Db) := by
  exact c4_refresh_suspended_forbidden testEnv 1000 testToken none none c4Db
    testToken.payload c4Record c4User
    (by decide) (by decide) (by decide) (by decide) (by decide)

/-- `storeRefreshToken` can only fail with the 500 unique-constraint error. -/
theorem storeRefreshToken_error_statusCode (env : Env) (now : Nat) (userId : String)
    (token : Jwt) (ua ip : Option String) (db : Db) (e : AppError)
    (h : storeRefreshToken env now userId token ua ip db = .error e) :
    e.statusCode = 500 := by
  unfold storeRefreshToken at h
  split at h
  · cases h; rfl
  · cases h

/-! ## C3 — login credential failures -/

/-- `login`, unknown email branch. -/
theorem login_no_user (env : Env) (now : Nat) (data : LoginInput)
    (ua ip : Option String) (db : Db)
    (hfind : db.users.find? (fun u => u.email == data.email) = none) :
    login env now data ua ip db =
      (.error { message := "Invalid email or password", statusCode := 401 }, db) := by
  simp [login, hfind]

/-- `login`, social-only branch. -/
theorem login_no_hash (env : Env) (now : Nat) (data : LoginInput)
    (ua ip : Option String) (db : Db) (user : User)
    (hfind : db.users.find? (fun u => u.email == data.email) = some user)
    (hhash : user.passwordHash = none) :
    login env now data ua ip db =
      (.error { message := "Account uses social login. Please sign in with your provider."
                statusCode := 401 }, db) := by
  simp [login, hfind, hhash]

/-- `login`, wrong-password branch. -/
theorem login_bad_password (env : Env) (now : Nat) (data : LoginInput)
    (ua ip : Option String) (db : Db) (user : User) (h : PasswordHash)
    (hfind : db.users.find? (fun u => u.email == data.email) = some user)
    (hhash : user.passwordHash = some h)
    (hcmp : comparePassword data.password h = false) :
    login env now data ua ip db =
      (.error { message := "Invalid email or password", statusCode := 401 }, db) := by
  simp [login, hfind, hhash, hcmp]

/-- `login`, non-active-status branch (only reached with the password
already verified). -/
theorem login_not_active (env : Env) (now : Nat) (data : LoginInput)
    (ua ip : Option String) (db : Db) (user : User) (h : PasswordHash)
    (hfind : db.users.find? (fun u => u.email == data.email) = some user)
    (hhash : user.passwordHash = some h)
    (hcmp : comparePassword data.password h = true)
    (hst : user.status ≠ "active") :
    login env now data ua ip db =
      (.error { message := "Account is " ++ user.status, statusCode := 403 }, db) := by
  simp [login, hfind, hhash, hcmp, hst]

/-- `login`, fully-authenticated branch: the result is success or the
store's 500, never a credential failure. -/
theorem login_active_result (env : Env) (now : Nat) (data : LoginInput)
    (ua ip : Option String) (db : Db) (user : User) (h : PasswordHash)
    (hfind : db.users.find? (fun u => u.email == data.email) = some user)
    (hhash : user.passwordHash = some h)
    (hcmp : comparePassword data.password h = true)
    (hst : user.status = "active") :
    (∃ r, (login env now data ua ip db).1 = .ok r) ∨
      ∃ e, (login env now data ua ip db).1 = .error e ∧ e.statusCode = 500 := by
  simp only [login, hfind, hhash, hcmp, Bool.not_true, Bool.false_eq_true, if_false, hst,
    ne_eq, not_true_eq_false]
  split
  · next r heq => exact .inl ⟨_, rfl⟩
  · next e heq =>
    exact .inr ⟨e, rfl, storeRefreshToken_error_statusCode _ _ _ _ _ _ _ _ heq⟩

/-- C3: `login` fails 401 in exactly three credential cases — unknown
email, null password hash, or failed password comparison.  Unknown email
and wrong password both return the generic "Invalid email or password";
the social-only case returns its distinct message; and a 403 can only
arise after the password has been verified successfully. -/
theorem c3_login_unauthorized_cases (env : Env) (now : Nat) (data : LoginInput)
    (ua ip : Option String) (db : Db) :
    ((∃ e, (login env now data ua ip db).1 = .error e ∧ e.statusCode = 401) ↔
      (db.users.find? (fun u => u.email == data.email) = none
       ∨ (∃ user, db.users.find? (fun u => u.email == data.email) = some user ∧
            user.passwordHash = none)
       ∨ (∃ user h, db.users.find? (fun u => u.email == data.email) = some user ∧
            user.passwordHash = some h ∧ comparePassword data.password h = false)))
    ∧ (db.users.find? (fun u => u.email == data.email) = none →
        (login env now data ua ip db).1 =
          .error { message := "Invalid email or password", statusCode := 401 })
    ∧ (∀ user h, db.users.find? (fun u => u.email == data.email) = some user →
        user.passwordHash = some h → comparePassword data.password h = false →
        (login env now data ua ip db).1 =
          .error { message := "Invalid email or password", statusCode := 401 })
    ∧ (∀ user, db.users.find? (fun u => u.email == data.email) = some user →
        user.passwordHash = none →
        (login env now data ua ip db).1 =
          .error { message := "Account uses social login. Please sign in with your provider."
                   statusCode := 401 })
    ∧ (∀ e, (login env now data ua ip db).1 = .error e → e.statusCode = 403 →
        ∃ user h, db.users.find? (fun u => u.email == data.email) = some user ∧
          user.passwordHash = some h ∧ comparePassword data.password h = true ∧
          user.status ≠ "active") := by
  cases hfind : db.users.find? (fun u => u.email == data.email) with
  | none =>
    have hres := login_no_user env now data ua ip db hfind
    refine ⟨by simp [hres, hfind], fun _ => by simp [hres], ?_, ?_, ?_⟩
    · intro user h hu _ _
      exact Option.noConfusion hu
    · intro user hu _
      exact Option.noConfusion hu
    · intro e he h403
      rw [hres] at he
      simp only [Except.error.injEq] at he
      rw [← he] at h403
      simp at h403
  | some user =>
    cases hhash : user.passwordHash with
    | none =>
      have hres := login_no_hash env now data ua ip db user hfind hhash
      refine ⟨by simp [hres, hfind, hhash], ?_, ?_, ?_, ?_⟩
      · intro hn; exact Option.noConfusion hn
      · intro user' h' hu hh _
        injection hu with hu; subst hu
        rw [hhash] at hh; exact Option.noConfusion hh
      · intro user' hu _
        injection hu with hu; subst hu
        simp [hres]
      · intro e he h403
        rw [hres] at he
        simp only [Except.error.injEq] at he
        rw [← he] at h403
        simp at h403
    | some h =>
      cases hcmp : comparePassword data.password h with
      | false =>
        have hres := login_bad_password env now data ua ip db user h hfind hhash hcmp
        refine ⟨?_, ?_, ?_, ?_, ?_⟩
        · rw [hres]
          simp only [hfind]
          constructor
          · intro _
            exact .inr (.inr ⟨user, h, rfl, hhash, hcmp⟩)
          · intro _
            exact ⟨_, rfl, rfl⟩
        · intro hn; exact Option.noConfusion hn
        · intro user' h' hu hh _
          injection hu with hu; subst hu
          simp [hres]
        · intro user' hu hh
          injection hu with hu; subst hu
          rw [hhash] at hh; exact Option.noConfusion hh
        · intro e he h403
          rw [hres] at he
          simp only [Except.error.injEq] at he
          rw [← he] at h403
          simp at h403
      | true =>
        have hone : ∀ user' : User, (some user : Option User) = some user' → user' = user := by
          intro user' hu
          injection hu with hu; exact hu.symm
        by_cases hst : user.status = "active"
        · have hres := login_active_result env now data ua ip db user h hfind hhash hcmp hst
          have hno401 : ∀ e, (login env now data ua ip db).1 = .error e →
              e.statusCode = 500 := by
            intro e he
            rcases hres with ⟨r, hr⟩ | ⟨e', he', h500⟩
            · rw [hr] at he; exact Except.noConfusion he
            · rw [he'] at he
              simp only [Except.error.injEq] at he
              rw [← he]; exact h500
          refine ⟨?_, ?_, ?_, ?_, ?_⟩
          · constructor
            · intro ⟨e, he, h401⟩
              have := hno401 e he
              omega
            · rintro (hn | ⟨user', hu, hh⟩ | ⟨user', h', hu, hh, hc⟩)
              · exact Option.noConfusion hn
              · cases hone user' hu
                rw [hhash] at hh; exact Option.noConfusion hh
              · cases hone user' hu
                rw [hhash] at hh; injection hh with hh
                rw [hh] at hcmp
                rw [hcmp] at hc; exact Bool.noConfusion hc
          · intro hn; exact Option.noConfusion hn
          · intro user' h' hu hh hc
            cases hone user' hu
            rw [hhash] at hh; injection hh with hh
            rw [hh] at hcmp
            rw [hcmp] at hc; exact Bool.noConfusion hc
          · intro user' hu hh
            cases hone user' hu
            rw [hhash] at hh; exact Option.noConfusion hh
          · intro e he h403
            have := hno401 e he
            omega
        · have hres := login_not_active env now data ua ip db user h hfind hhash hcmp hst
          refine ⟨?_, ?_, ?_, ?_, ?_⟩
          · constructor
            · intro ⟨e, he, h401⟩
              rw [hres] at he
              simp only [Except.error.injEq] at he
              rw [← he] at h401
              simp at h401
            · rintro (hn | ⟨user', hu, hh⟩ | ⟨user', h', hu, hh, hc⟩)
              · exact Option.noConfusion hn
              · cases hone user' hu
                rw [hhash] at hh; exact Option.noConfusion hh
              · cases hone user' hu
                rw [hhash] at hh; injection hh with hh
                rw [hh] at hcmp
                rw [hcmp] at hc; exact Bool.noConfusion hc
          · intro hn; exact Option.noConfusion hn
          · intro user' h' hu hh hc
            cases hone user' hu
            rw [hhash] at hh; injection hh with hh
            rw [hh] at hcmp
            rw [hcmp] at hc; exact Bool.noConfusion hc
          · intro user' hu hh
            cases hone user' hu
            rw [hhash] at hh; exact Option.noConfusion hh
          · intro e _ _
            exact ⟨user, h, rfl, hhash, hcmp, hst⟩

/-- Concrete store for the C3 witness: one local account. -/
def c3Db : Db :=
  { users := [{ id := "u1", email := "a@b.c"
                passwordHash := some { plain := "Abcd1234!", salt := 0 }
                name := none, avatarUrl := none, theme := none
                status := "active", authProvider := some "local"
                lastLoginAt := none, createdAt := 0 }]
    refreshTokens := [], nextId := 1 }

/-- C3 witness: wrong password and unknown email both yield the generic
401 message on a concrete store. -/
theorem c3_witness :
    (login testEnv 5 { email := "a@b.c", password := "wrong" } none none c3Db).1 =
      .error { message := "Invalid email or password", statusCode := 401 }
    ∧ (login testEnv 5 { email := "nobody@b.c", password := "x" } none none c3Db).1 =
      .error { message := "Invalid email or password", statusCode := 401 } := by
  constructor
  · exact (c3_login_unauthorized_cases testEnv 5
      { email := "a@b.c", password := "wrong" } none none c3Db).2.2.1
      { id := "u1", email := "a@b.c"
        passwordHash := some { plain := "Abcd1234!", salt := 0 }
        name := none, avatarUrl := none, theme := none
        status := "active", authProvider := some "local"
        lastLoginAt := none, createdAt := 0 }
      { plain := "Abcd1234!", salt := 0 }
      (by decide) (by decide) (by decide)
  · exact (c3_login_unauthorized_cases testEnv 5
      { email := "nobody@b.c", password := "x" } none none c3Db).2.1 (by decide)

/-! ## C10 — changePassword is atomic on failure -/

/-- C10: every failure of `changePassword` — account not found (404), null
password hash (400), or current-password mismatch (401) — leaves the store
exactly unchanged: no hash update, no token revoked or deleted. -/
theorem c10_changePassword_atomic_failure (now salt : Nat) (uid : String)
    (data : ChangePasswordInput) (db : Db) :
    (∀ e, (changePassword now salt uid data db).1 = .error e →
      (changePassword now salt uid data db).2 = db ∧
        (e = { message := "User not found", statusCode := 404 }
         ∨ e = { message := "Account uses social login. Cannot change password."
                 statusCode := 400 }
         ∨ e = { message := "Current password is incorrect", statusCode := 401 }))
    ∧ (db.users.find? (fun u => u.id == uid) = none →
        changePassword now salt uid data db =
          (.error { message := "User not found", statusCode := 404 }, db))
    ∧ (∀ user, db.users.find? (fun u => u.id == uid) = some user →
        user.passwordHash = none →
        changePassword now salt uid data db =
          (.error { message := "Account uses social login. Cannot change password."
                    statusCode := 400 }, db))
    ∧ (∀ user h, db.users.find? (fun u => u.id == uid) = some user →
        user.passwordHash = some h → comparePassword data.currentPassword h = false →
        changePassword now salt uid data db =
          (.error { message := "Current password is incorrect", statusCode := 401 }, db)) := by
  cases hfind : db.users.find? (fun u => u.id == uid) with
  | none =>
    have hres : changePassword now salt uid data db =
        (.error { message := "User not found", statusCode := 404 }, db) := by
      simp [changePassword, hfind]
    refine ⟨?_, fun _ => hres, ?_, ?_⟩
    · intro e he
      rw [hres] at he
      simp only [Except.error.injEq] at he
      rw [hres]
      exact ⟨rfl, .inl he.symm⟩
    · intro user hu _
      exact Option.noConfusion hu
    · intro user h hu _ _
      exact Option.noConfusion hu
  | some user =>
    have hone : ∀ user' : User, (some user : Option User) = some user' → user' = user := by
      intro user' hu
      injection hu with hu; exact hu.symm
    cases hhash : user.passwordHash with
    | none =>
      have hres : changePassword now salt uid data db =
          (.error { message := "Account uses social login. Cannot change password."
                    statusCode := 400 }, db) := by
        simp [changePassword, hfind, hhash]
      refine ⟨?_, ?_, ?_, ?_⟩
      · intro e he
        rw [hres] at he
        simp only [Except.error.injEq] at he
        rw [hres]
        exact ⟨rfl, .inr (.inl he.symm)⟩
      · intro hn; exact Option.noConfusion hn
      · intro user' hu hh
        cases hone user' hu
        exact hres
      · intro user' h' hu hh _
        cases hone user' hu
        rw [hhash] at hh; exact Option.noConfusion hh
    | some h =>
      cases hcmp : comparePassword data.currentPassword h with
      | false =>
        have hres : changePassword now salt uid data db =
            (.error { message := "Current password is incorrect", statusCode := 401 }, db) := by
          simp [changePassword, hfind, hhash, hcmp]
        refine ⟨?_, ?_, ?_, ?_⟩
        · intro e he
          rw [hres] at he
          simp only [Except.error.injEq] at he
          rw [hres]
          exact ⟨rfl, .inr (.inr he.symm)⟩
        · intro hn; exact Option.noConfusion hn
        · intro user' hu hh
          cases hone user' hu
          rw [hhash] at hh; exact Option.noConfusion hh
        · intro user' h' hu hh hc
          cases hone user' hu
          exact hres
      | true =>
        have hok : (changePassword now salt uid data db).1 = .ok () := by
          simp [changePassword, hfind, hhash, hcmp]
        refine ⟨?_, ?_, ?_, ?_⟩
        · intro e he
          rw [hok] at he; exact Except.noConfusion he
        · intro hn; exact Option.noConfusion hn
        · intro user' hu hh
          cases hone user' hu
          rw [hhash] at hh; exact Option.noConfusion hh
        · intro user' h' hu hh hc
          cases hone user' hu
          rw [hhash] at hh; injection hh with hh
          rw [hh] at hcmp
          rw [hcmp] at hc; exact Bool.noConfusion hc

/-- C10 witness: wrong current password on a concrete store changes
nothing. -/
theorem c10_witness :
    changePassword 5 1 "u1" { currentPassword := "wrong", newPassword := "Neww1234!" } c3Db =
      (.error { message := "Current password is incorrect", statusCode := 401 }, c3Db) := by
  exact (c10_changePassword_atomic_failure 5 1 "u1"
    { currentPassword := "wrong", newPassword := "Neww1234!" } c3Db).2.2.2
    { id := "u1", email := "a@b.c"
      passwordHash := some { plain := "Abcd1234!", salt := 0 }
      name := none, avatarUrl := none, theme := none
      status := "active", authProvider := some "local"
      lastLoginAt := none, createdAt := 0 }
    { plain := "Abcd1234!", salt := 0 }
    (by decide) (by decide) (by decide)

/-! ## C8 — fixed-window rate limiting -/

/-- Inside a window (every request instant before the entry's reset time),
the i-th request sees count `c + i + 1`: allowed while within the maximum,
rejected 429 with the remaining window time (in seconds, rounded up) as
Retry-After beyond it. -/
theorem runRateLimiter_window (o : RateLimitOptions) (R : Nat) :
    ∀ (ts : List Nat) (c i : Nat), (∀ t ∈ ts, t < R) →
    (runRateLimiter o (some { count := c, resetTime := R }) ts)[i]? =
      (ts[i]?).map (fun t =>
        if c + i + 1 > o.maxRequests then
          RateLimitDecision.rejected 429 o.message ((R - t + 999) / 1000)
        else RateLimitDecision.allowed) := by
  intro ts
  induction ts with
  | nil => intro c i _; simp [runRateLimiter]
  | cons t ts ih =>
    intro c i hts
    have ht : t < R := hts t (List.mem_cons_self _ _)
    have hstep : rateLimitStep o t (some { count := c, resetTime := R }) =
        ({ count := c + 1, resetTime := R },
         if c + 1 > o.maxRequests then
           RateLimitDecision.rejected 429 o.message ((R - t + 999) / 1000)
         else RateLimitDecision.allowed) := by
      unfold rateLimitStep
      have hnr : ¬ R ≤ t := by omega
      simp [hnr]
    cases i with
    | zero =>
      simp [runRateLimiter, hstep]
    | succ j =>
      simp only [runRateLimiter, hstep, List.getElem?_cons_succ]
      rw [ih (c + 1) j (fun t' ht' => hts t' (List.mem_cons_of_mem _ ht'))]
      simp only [show ∀ m : Nat, c + 1 + j + 1 > m ↔ c + (j + 1) + 1 > m from
        fun m => by omega]

/-- C8: for one key, starting from an empty store, the i-th request of a
window (all instants inside the window) is allowed iff `i + 1 ≤
maxRequests` and otherwise rejected with 429 and a Retry-After of the
window's remaining time in whole seconds (rounded up); the auth limiter is
10 requests / 15 minutes and the general limiter 100 requests / minute; a
request at or after the reset time starts a fresh window with count 1. -/
theorem c8_rate_limit_window_behavior :
    (authRateLimiter.windowMs = 900000 ∧ authRateLimiter.maxRequests = 10 ∧
     apiRateLimiter.windowMs = 60000 ∧ apiRateLimiter.maxRequests = 100)
    ∧ (∀ (o : RateLimitOptions) (t0 : Nat) (ts : List Nat) (i : Nat),
        (∀ t ∈ ts, t < t0 + o.windowMs) →
        (runRateLimiter o none (t0 :: ts))[i]? =
          ((t0 :: ts)[i]?).map (fun t =>
            if i + 1 > o.maxRequests then
              RateLimitDecision.rejected 429 o.message ((t0 + o.windowMs - t + 999) / 1000)
            else RateLimitDecision.allowed))
    ∧ (∀ (o : RateLimitOptions) (now : Nat) (e : RateLimitEntry), e.resetTime ≤ now →
        (rateLimitStep o now (some e)).1 = { count := 1, resetTime := now + o.windowMs }) := by
  refine ⟨⟨rfl, rfl, rfl, rfl⟩, ?_, ?_⟩
  · intro o t0 ts i hts
    have hstep0 : rateLimitStep o t0 none =
        ({ count := 1, resetTime := t0 + o.windowMs },
         if 1 > o.maxRequests then
           RateLimitDecision.rejected 429 o.message ((t0 + o.windowMs - t0 + 999) / 1000)
         else RateLimitDecision.allowed) := by
      unfold rateLimitStep
      simp
    cases i with
    | zero =>
      simp [runRateLimiter, hstep0]
    | succ j =>
      simp only [runRateLimiter, hstep0, List.getElem?_cons_succ]
      rw [runRateLimiter_window o (t0 + o.windowMs) ts 1 j hts]
      simp only [show ∀ m : Nat, 1 + j + 1 > m ↔ j + 1 + 1 > m from fun m => by omega]
  · intro o now e he
    unfold rateLimitStep
    simp [he]

/-- C8 witness: eleven simultaneous requests through the auth limiter —
the first ten pass, the eleventh is rejected with a 900-second
Retry-After — and a request at the reset time restarts the window. -/
theorem c8_witness :
    (runRateLimiter authRateLimiter none (0 :: List.replicate 10 0))[0]? =
      some RateLimitDecision.allowed
    ∧ (runRateLimiter authRateLimiter none (0 :: List.replicate 10 0))[10]? =
      some (RateLimitDecision.rejected 429
        "Too many authentication attempts, please try again in 15 minutes" 900)
    ∧ (rateLimitStep authRateLimiter 100 (some { count := 5, resetTime := 100 })).1 =
      { count := 1, resetTime := 900100 } := by
  refine ⟨?_, ?_, ?_⟩
  · rw [c8_rate_limit_window_behavior.2.1 authRateLimiter 0 (List.replicate 10 0) 0
      (by decide)]
    decide
  · rw [c8_rate_limit_window_behavior.2.1 authRateLimiter 0 (List.replicate 10 0) 10
      (by decide)]
    decide
  · exact c8_rate_limit_window_behavior.2.2 authRateLimiter 100
      { count := 5, resetTime := 100 } (by decide)

/-! ## Store lemmas shared by the session-manager claims -/

/-- `find?` over a map whose function preserves the predicate. -/
theorem find_map_pres {α : Type} (g : α → α) (p : α → Bool)
    (hg : ∀ x, p (g x) = p x) (l : List α) :
    (l.map g).find? p = (l.find? p).map g := by
  rw [List.find?_map]
  have hpg : p ∘ g = p := funext hg
  rw [hpg]

/-- The first match of `find?` survives a filter that keeps it. -/
theorem find_filter_stable {α : Type} (p q : α → Bool) (l : List α) (r : α)
    (hfind : l.find? p = some r) (hq : q r = true) :
    (l.filter q).find? p = some r := by
  induction l with
  | nil => exact Option.noConfusion hfind
  | cons a l ih =>
    by_cases hpa : p a = true
    · rw [List.find?_cons_of_pos _ hpa] at hfind
      injection hfind with hfind
      subst hfind
      rw [List.filter_cons, if_pos hq, List.find?_cons_of_pos _ hpa]
    · have hfind' : l.find? p = some r := by
        rwa [List.find?_cons_of_neg _ hpa] at hfind
      rw [List.filter_cons]
      by_cases hqa : q a = true
      · rw [if_pos hqa, List.find?_cons_of_neg _ hpa]
        exact ih hfind'
      · rw [if_neg hqa]
        exact ih hfind'

/-- In a list with distinct tokens, the unique-token lookup of a member's
token returns that member. -/
theorem find_token_of_mem (l : List RefreshTokenRecord) (rec : RefreshTokenRecord)
    (hmem : rec ∈ l) (hnd : (l.map (·.token)).Nodup) :
    l.find? (fun r => r.token == rec.token) = some rec := by
  cases hfind : l.find? (fun r => r.token == rec.token) with
  | none =>
    have hall := List.find?_eq_none.mp hfind
    exact absurd (by simp) (hall rec hmem)
  | some x =>
    have hx := List.find?_some hfind
    have hxm : x ∈ l := List.mem_of_find?_eq_some hfind
    have : x = rec := List.inj_on_of_nodup_map hnd hxm hmem (by simpa using hx)
    rw [this]

/-- `revokeAllUserTokens` leaves no unrevoked record of that user. -/
theorem revokeAll_none_live (now : Nat) (uid : String) (db : Db) :
    ∀ rec ∈ (revokeAllUserTokens now uid db).refreshTokens,
      rec.userId = uid → rec.revokedAt.isSome := by
  intro rec hrec hid
  simp only [revokeAllUserTokens, List.mem_map] at hrec
  obtain ⟨x, _, rfl⟩ := hrec
  by_cases hc : (x.userId == uid && x.revokedAt == none) = true
  · rw [if_pos hc] at hid ⊢
    simp
  · rw [if_neg hc] at hid ⊢
    have hbu : (x.userId == uid) = true := beq_iff_eq.mpr hid
    cases h : x.revokedAt with
    | some t => simp
    | none =>
      exact absurd (by rw [Bool.and_eq_true]; exact ⟨hbu, by simp [h]⟩) hc

/-- `revokeAllUserTokens` preserves the token column. -/
theorem revokeAll_tokens (now : Nat) (uid : String) (db : Db) :
    (revokeAllUserTokens now uid db).refreshTokens.map (·.token) =
      db.refreshTokens.map (·.token) := by
  simp only [revokeAllUserTokens, List.map_map]
  congr 1
  funext x
  by_cases hc : (x.userId == uid && x.revokedAt == none) = true <;>
    simp [Function.comp, hc]

/-- `revokeAllUserTokens` does not touch users. -/
theorem revokeAll_users (now : Nat) (uid : String) (db : Db) :
    (revokeAllUserTokens now uid db).users = db.users := rfl

/-- When the unique-token check passes, `storeRefreshToken` succeeds. -/
theorem storeRefreshToken_ok_exists (env : Env) (now : Nat) (userId : String)
    (token : Jwt) (ua ip : Option String) (db : Db)
    (h : db.refreshTokens.any (fun r => r.token == token) = false) :
    ∃ db₂, storeRefreshToken env now userId token ua ip db = .ok db₂ := by
  unfold storeRefreshToken
  rw [h]
  exact ⟨_, rfl⟩

/-- `login`, fully-authenticated branch with a fresh token: success. -/
theorem login_success (env : Env) (now : Nat) (data : LoginInput)
    (ua ip : Option String) (db : Db) (user : User) (h : PasswordHash)
    (hfind : db.users.find? (fun u => u.email == data.email) = some user)
    (hhash : user.passwordHash = some h)
    (hcmp : comparePassword data.password h = true)
    (hst : user.status = "active")
    (hfresh : db.refreshTokens.any
      (fun r => r.token == (generateTokenPair env now user.id user.email).refreshToken)
        = false) :
    ∃ r, (login env now data ua ip db).1 = .ok r := by
  obtain ⟨db₂, hdb₂⟩ := storeRefreshToken_ok_exists env now user.id
    (generateTokenPair env now user.id user.email).refreshToken ua ip
    { db with users := db.users.map fun u =>
        if u.id == user.id then { u with lastLoginAt := some now } else u }
    (by simpa using hfresh)
  simp only [login, hfind, hhash, hcmp, Bool.not_true, Bool.false_eq_true, if_false, hst,
    ne_eq, not_true_eq_false, hdb₂]
  exact ⟨_, rfl⟩

/-! ## C5 — changePassword rotates the credential and kills all sessions -/

/-- C5 counterexample: when the new password equals the current one,
`changePassword` succeeds yet the stored hash still verifies the old
password — the claim's "no longer verifies the old password" fails. -/
theorem c5_counterexample :
    (changePassword 5 1 "u1"
      { currentPassword := "Abcd1234!", newPassword := "Abcd1234!" } c3Db).1 = .ok ()
    ∧ (changePassword 5 1 "u1"
        { currentPassword := "Abcd1234!", newPassword := "Abcd1234!" } c3Db).2.users.find?
          (fun x => x.id == "u1") =
        some { id := "u1", email := "a@b.c"
               passwordHash := some { plain := "Abcd1234!", salt := 1 }
               name := none, avatarUrl := none, theme := none
               status := "active", authProvider := some "local"
               lastLoginAt := none, createdAt := 0 }
    ∧ comparePassword "Abcd1234!" { plain := "Abcd1234!", salt := 1 } = true := by
  exact ⟨rfl, rfl, rfl⟩

/-- C5 (amended): a successful `changePassword` stores a hash that
verifies the new password; provided the new password differs from the
current one, the stored hash no longer verifies the old password and
`login` with the old password fails 401; every refresh-token record of the
account is revoked, so `refreshTokens` with any of them fails; and with a
fresh token `login` with the new password succeeds. -/
theorem c5_changePassword_success (now salt : Nat) (uid : String)
    (data : ChangePasswordInput) (db : Db) (user : User) (hash : PasswordHash)
    (hfind : db.users.find? (fun u => u.id == uid) = some user)
    (hhash : user.passwordHash = some hash)
    (hcmp : comparePassword data.currentPassword hash = true)
    (hTok : (db.refreshTokens.map (·.token)).Nodup)
    (hNew : data.newPassword ≠ data.currentPassword) :
    (changePassword now salt uid data db).1 = .ok ()
    ∧ (changePassword now salt uid data db).2.users.find? (fun u => u.id == uid) =
        some { user with passwordHash := some (hashPassword salt data.newPassword) }
    ∧ comparePassword data.newPassword (hashPassword salt data.newPassword) = true
    ∧ comparePassword data.currentPassword (hashPassword salt data.newPassword) = false
    ∧ (∀ rec ∈ (changePassword now salt uid data db).2.refreshTokens,
        rec.userId = uid → rec.revokedAt.isSome)
    ∧ (∀ rec ∈ (changePassword now salt uid data db).2.refreshTokens,
        rec.userId = uid → ∀ (env2 : Env) (t2 : Nat) (ua ip : Option String),
          ∃ e, (refreshTokens env2 t2 rec.token ua ip
                  (changePassword now salt uid data db).2).1 = .error e)
    ∧ (∀ (env2 : Env) (t2 : Nat) (ua ip : Option String),
        db.users.find? (fun u => u.email == user.email) = some user →
        (login env2 t2 { email := user.email, password := data.currentPassword } ua ip
            (changePassword now salt uid data db).2).1 =
          .error { message := "Invalid email or password", statusCode := 401 })
    ∧ (∀ (env2 : Env) (t2 : Nat) (ua ip : Option String),
        db.users.find? (fun u => u.email == user.email) = some user →
        user.status = "active" →
        (∀ rec ∈ db.refreshTokens,
          rec.token ≠ generateRefreshToken env2 t2 user.id user.email) →
        ∃ r, (login env2 t2 { email := user.email, password := data.newPassword } ua ip
                (changePassword now salt uid data db).2).1 = .ok r) := by
  have hid : user.id = uid := by
    have := List.find?_some hfind
    simpa using this
  have hres : changePassword now salt uid data db =
      (.ok (), revokeAllUserTokens now uid
        { db with users := db.users.map fun u =>
            if u.id == uid then { u with passwordHash := some (hashPassword salt data.newPassword) } else u }) := by
    simp [changePassword, hfind, hhash, hcmp]
  have gpres : ∀ x : User,
      ((if x.id == uid then { x with passwordHash := some (hashPassword salt data.newPassword) } else x).id == uid) = (x.id == uid) := by
    intro x
    by_cases hx : (x.id == uid) = true <;> simp [hx]
  have husers : (changePassword now salt uid data db).2.users.find? (fun u => u.id == uid) =
      some { user with passwordHash := some (hashPassword salt data.newPassword) } := by
    rw [hres]
    show (db.users.map _).find? _ = _
    rw [find_map_pres _ _ gpres, hfind]
    simp [hid]
  have htokens : (changePassword now salt uid data db).2.refreshTokens.map (·.token) =
      db.refreshTokens.map (·.token) := by
    rw [hres]
    exact revokeAll_tokens now uid _
  have hrevoked : ∀ rec ∈ (changePassword now salt uid data db).2.refreshTokens,
      rec.userId = uid → rec.revokedAt.isSome := by
    rw [hres]
    exact revokeAll_none_live now uid _
  refine ⟨by rw [hres], husers, by simp [comparePassword, hashPassword], ?_, hrevoked,
    ?_, ?_, ?_⟩
  · simp [comparePassword, hashPassword]
    exact fun h => absurd h hNew
  · intro rec hrec hruid env2 t2 ua ip
    cases hver : verifyRefreshToken env2 t2 rec.token with
    | none =>
      exact ⟨{ message := "Invalid or expired refresh token", statusCode := 401 },
        by simp [refreshTokens, hver]⟩
    | some payload =>
      have hnd : ((changePassword now salt uid data db).2.refreshTokens.map (·.token)).Nodup := by
        rw [htokens]; exact hTok
      have hfindTok := find_token_of_mem _ rec hrec hnd
      have hrev : rec.revokedAt.isSome = true := hrevoked rec hrec hruid
      exact ⟨{ message := "Refresh token has been revoked", statusCode := 401 },
        by simp [refreshTokens, hver, hfindTok, refreshTokensResume, hrev]⟩
  · intro env2 t2 ua ip hemail
    have gepres : ∀ x : User,
        ((if x.id == uid then { x with passwordHash := some (hashPassword salt data.newPassword) } else x).email == user.email) = (x.email == user.email) := by
      intro x
      by_cases hx : (x.id == uid) = true <;> simp [hx]
    have hemail' : (changePassword now salt uid data db).2.users.find?
        (fun u => u.email == user.email) =
        some { user with passwordHash := some (hashPassword salt data.newPassword) } := by
      rw [hres]
      show (db.users.map _).find? _ = _
      rw [find_map_pres _ _ gepres, hemail]
      simp [hid]
    have := login_bad_password env2 t2
      { email := user.email, password := data.currentPassword } ua ip
      (changePassword now salt uid data db).2
      { user with passwordHash := some (hashPassword salt data.newPassword) }
      (hashPassword salt data.newPassword) hemail' rfl
      (by simp [comparePassword, hashPassword]; exact fun h => absurd h hNew)
    rw [this]
  · intro env2 t2 ua ip hemail hactive hfresh
    have gepres : ∀ x : User,
        ((if x.id == uid then { x with passwordHash := some (hashPassword salt data.newPassword) } else x).email == user.email) = (x.email == user.email) := by
      intro x
      by_cases hx : (x.id == uid) = true <;> simp [hx]
    have hemail' : (changePassword now salt uid data db).2.users.find?
        (fun u => u.email == user.email) =
        some { user with passwordHash := some (hashPassword salt data.newPassword) } := by
      rw [hres]
      show (db.users.map _).find? _ = _
      rw [find_map_pres _ _ gepres, hemail]
      simp [hid]
    have hany : (changePassword now salt uid data db).2.refreshTokens.any
        (fun r => r.token ==
          (generateTokenPair env2 t2 user.id user.email).refreshToken) = false := by
      rw [List.any_eq_false]
      intro r hr
      have hrtok : r.token ∈ db.refreshTokens.map (·.token) := by
        rw [← htokens]
        exact List.mem_map_of_mem _ hr
      obtain ⟨r0, hr0, hr0tok⟩ := List.mem_map.mp hrtok
      simp only [beq_iff_eq]
      rw [← hr0tok]
      exact hfresh r0 hr0
    exact login_success env2 t2
      { email := user.email, password := data.newPassword } ua ip
      (changePassword now salt uid data db).2
      { user with passwordHash := some (hashPassword salt data.newPassword) }
      (hashPassword salt data.newPassword) hemail' rfl
      (by simp [comparePassword, hashPassword]) hactive hany

/-- C5 witness: a successful password change on a concrete store. -/
theorem c5_witness :
    (changePassword 5 1 "u1"
      { currentPassword := "Abcd1234!", newPassword := "Neww1234!" } c3Db).1 = .ok ()
    ∧ comparePassword "Neww1234!" (hashPassword 1 "Neww1234!") = true
    ∧ comparePassword "Abcd1234!" (hashPassword 1 "Neww1234!") = false := by
  have h := c5_changePassword_success 5 1 "u1"
    { currentPassword := "Abcd1234!", newPassword := "Neww1234!" } c3Db
    { id := "u1", email := "a@b.c"
      passwordHash := some { plain := "Abcd1234!", salt := 0 }
      name := none, avatarUrl := none, theme := none
      status := "active", authProvider := some "local"
      lastLoginAt := none, createdAt := 0 }
    { plain := "Abcd1234!", salt := 0 }
    (by decide) (by decide) (by decide) (by decide) (by decide)
  exact ⟨h.1, h.2.2.1, h.2.2.2.1⟩

/-! ## C6 — per-account cap of 10 live refresh tokens -/

/-- Live records of one account, counted (spec §3's "live": unrevoked and
unexpired). -/
def liveCount (now : Nat) (u : String) (db : Db) : Nat :=
  db.refreshTokens.countP fun r => r.userId == u && liveRecord now r

theorem insertByCreatedDesc_perm (r : RefreshTokenRecord) (l : List RefreshTokenRecord) :
    (insertByCreatedDesc r l).Perm (r :: l) := by
  induction l with
  | nil => exact List.Perm.refl _
  | cons x xs ih =>
    unfold insertByCreatedDesc
    split
    · exact List.Perm.refl _
    · exact (ih.cons x).trans (List.Perm.swap r x xs)

theorem sortByCreatedDesc_perm (l : List RefreshTokenRecord) :
    (sortByCreatedDesc l).Perm l := by
  induction l with
  | nil => exact List.Perm.refl _
  | cons x xs ih =>
    exact (insertByCreatedDesc_perm x (sortByCreatedDesc xs)).trans (ih.cons x)

/-- After the eviction step, at most 10 rows satisfying the eviction
predicate remain. -/
theorem cap_after_evict (P : RefreshTokenRecord → Bool) (L : List RefreshTokenRecord) :
    (L.filter fun r =>
        !(((sortByCreatedDesc (L.filter P)).drop 10).any fun t => t.id == r.id)).countP P
      ≤ 10 := by
  set S := sortByCreatedDesc (L.filter P) with hS
  set Q : RefreshTokenRecord → Bool :=
    fun r => !((S.drop 10).any fun t => t.id == r.id) with hQ
  rw [List.countP_filter]
  have h1 : L.countP (fun a => P a && Q a) = (L.filter P).countP Q := by
    rw [List.countP_filter]
    exact List.countP_congr fun x _ => by
      cases hp : P x <;> cases hq : Q x <;> simp [hp, hq]
  have h2 : (L.filter P).countP Q = S.countP Q :=
    (List.Perm.countP_eq Q (sortByCreatedDesc_perm (L.filter P))).symm
  have h3 : S.countP Q = (S.take 10).countP Q + (S.drop 10).countP Q := by
    conv_lhs => rw [← List.take_append_drop 10 S]
    exact List.countP_append _ _ _
  have h4 : (S.drop 10).countP Q = 0 := by
    rw [List.countP_eq_zero]
    intro a ha
    have hany : (S.drop 10).any (fun t => t.id == a.id) = true :=
      List.any_eq_true.mpr ⟨a, ha, by simp⟩
    simp [hQ, hany]
  have h5 : (S.take 10).countP Q ≤ 10 := by
    calc (S.take 10).countP Q ≤ (S.take 10).length := List.countP_le_length _
    _ ≤ 10 := by rw [List.length_take]; omega
  omega

/-- A successful `storeRefreshToken` leaves at most 10 unrevoked rows for
the stored user. -/
theorem storeRefreshToken_cap (env : Env) (now : Nat) (uid : String) (token : Jwt)
    (ua ip : Option String) (db db₂ : Db)
    (h : storeRefreshToken env now uid token ua ip db = .ok db₂) :
    db₂.refreshTokens.countP (fun r => r.userId == uid && r.revokedAt == none) ≤ 10 := by
  unfold storeRefreshToken at h
  split at h
  · exact Except.noConfusion h
  · injection h with h
    subst h
    exact cap_after_evict _ _

/-- A successful `storeRefreshToken` leaves the rows counted by any
predicate confined to a different user unchanged. -/
theorem storeRefreshToken_other_user (env : Env) (now : Nat) (uid : String) (token : Jwt)
    (ua ip : Option String) (db db₂ : Db)
    (hids : (db.refreshTokens.map (·.id)).Nodup)
    (hbound : ∀ r ∈ db.refreshTokens, r.id < db.nextId)
    (h : storeRefreshToken env now uid token ua ip db = .ok db₂)
    (Pu : RefreshTokenRecord → Bool) (hPu : ∀ r, Pu r = true → r.userId ≠ uid) :
    db₂.refreshTokens.countP Pu = db.refreshTokens.countP Pu := by
  unfold storeRefreshToken at h
  split at h
  · exact Except.noConfusion h
  · injection h with h
    subst h
    simp only []
    set rec : RefreshTokenRecord :=
      { id := db.nextId, token := token, userId := uid, createdAt := now
        expiresAt := getExpirationDate env.JWT_REFRESH_EXPIRES_IN now
        revokedAt := none, userAgent := ua, ipAddress := ip } with hrec
    set L : List RefreshTokenRecord := db.refreshTokens ++ [rec] with hL
    set P : RefreshTokenRecord → Bool :=
      fun r => r.userId == uid && r.revokedAt == none with hP
    set D := (sortByCreatedDesc (L.filter P)).drop 10 with hD
    have hLids : (L.map (·.id)).Nodup := by
      rw [hL, List.map_append, List.nodup_append]
      refine ⟨hids, List.nodup_singleton _, ?_⟩
      intro i hi hi1
      simp only [List.map_cons, List.map_nil, List.mem_singleton] at hi1
      obtain ⟨r0, hr0, hr0i⟩ := List.mem_map.mp hi
      subst hi1
      exact absurd (hr0i ▸ hbound r0 hr0) (by simp [hrec])
    have hdm : ∀ d ∈ D, d.userId = uid := by
      intro d hd
      have hdS : d ∈ sortByCreatedDesc (L.filter P) := List.mem_of_mem_drop hd
      have hdf : d ∈ L.filter P := (sortByCreatedDesc_perm _).subset hdS
      have := List.of_mem_filter hdf
      rw [hP] at this
      simp only [Bool.and_eq_true, beq_iff_eq] at this
      exact this.1
    have hDL : ∀ d ∈ D, d ∈ L := by
      intro d hd
      exact List.mem_of_mem_filter ((sortByCreatedDesc_perm _).subset
        (List.mem_of_mem_drop hd))
    rw [List.countP_filter, hL, List.countP_append]
    have hrec0 : (Pu rec && !(D.any fun t => t.id == rec.id)) = false := by
      cases hpu : Pu rec
      · simp
      · exact absurd rfl (hPu rec hpu)
    have hsingle : List.countP (fun a => Pu a && !(D.any fun t => t.id == a.id)) [rec] = 0 := by
      simp [List.countP_cons, hrec0]
    rw [hsingle]
    have hcong : List.countP (fun a => Pu a && !(D.any fun t => t.id == a.id))
        db.refreshTokens = List.countP Pu db.refreshTokens := by
      apply List.countP_congr
      intro x hx
      cases hpu : Pu x
      · simp
      · simp only [hpu, Bool.true_and, true_iff]
        have hxL : x ∈ L := by rw [hL]; exact List.mem_append_left _ hx
        rw [Bool.not_eq_true']
        rw [List.any_eq_false]
        simp only [iff_true]
        intro d hd hdi
        have hdL : d ∈ L := hDL d hd
        have : d = x := List.inj_on_of_nodup_map hLids hdL hxL (by simpa using hdi)
        subst this
        exact absurd (hdm d hd) (hPu d hpu)
    rw [hcong]
    omega

/-- `liveCount` is bounded by the unrevoked-rows count. -/
theorem liveCount_le_unrevoked (now : Nat) (u : String) (db : Db) :
    liveCount now u db ≤
      db.refreshTokens.countP (fun r => r.userId == u && r.revokedAt == none) := by
  apply List.countP_mono_left
  intro x _ hx
  simp only [liveRecord, Bool.and_eq_true] at hx
  simp [hx.1, hx.2.1]

/-- Revoking one row can only lower a live-style count. -/
theorem liveCount_revokeTokenById_le (now t : Nat) (id : Nat) (u : String) (db : Db) :
    liveCount now u (revokeTokenById t id db) ≤ liveCount now u db := by
  unfold liveCount revokeTokenById
  rw [List.countP_map]
  apply List.countP_mono_left
  intro x _ hx
  simp only [Function.comp] at hx
  by_cases hid : (x.id == id) = true
  · rw [if_pos hid] at hx
    simp [liveRecord] at hx
  · rwa [if_neg hid] at hx

/-- `revokeTokenById` preserves the id column. -/
theorem revokeTokenById_ids (t : Nat) (id : Nat) (db : Db) :
    (revokeTokenById t id db).refreshTokens.map (·.id) =
      db.refreshTokens.map (·.id) := by
  simp only [revokeTokenById, List.map_map]
  congr 1
  funext x
  by_cases hx : (x.id == id) = true <;> simp [Function.comp, hx]

/-- A successful `register` ends in a successful `storeRefreshToken` on a
store with the same token table and a bumped id supply. -/
theorem register_ok_store (env : Env) (now salt : Nat) (data : RegisterInput)
    (ua ip : Option String) (db : Db) (res : AuthResult)
    (h : (register env now salt data ua ip db).1 = .ok res) :
    ∃ (uid : String) (tok : Jwt) (users' : List User) (db₂ : Db),
      storeRefreshToken env now uid tok ua ip
        { users := users', refreshTokens := db.refreshTokens, nextId := db.nextId + 1 } =
          .ok db₂
      ∧ (register env now salt data ua ip db).2 = db₂ := by
  simp only [register] at h ⊢
  split at h
  · exact Except.noConfusion h
  · split at h
    · next db₂ heq =>
      refine ⟨_, _, _, db₂, heq, ?_⟩
      rfl
    · exact Except.noConfusion h

/-- A successful `login` ends in a successful `storeRefreshToken` on a
store with the same token table and id supply. -/
theorem login_ok_store (env : Env) (now : Nat) (data : LoginInput)
    (ua ip : Option String) (db : Db) (res : AuthResult)
    (h : (login env now data ua ip db).1 = .ok res) :
    ∃ (uid : String) (tok : Jwt) (users' : List User) (db₂ : Db),
      storeRefreshToken env now uid tok ua ip
        { users := users', refreshTokens := db.refreshTokens, nextId := db.nextId } =
          .ok db₂
      ∧ (login env now data ua ip db).2 = db₂ := by
  simp only [login] at h ⊢
  split at h
  · exact Except.noConfusion h
  · next user heq1 =>
    split at h
    · exact Except.noConfusion h
    · next hsh heq2 =>
      split at h
      · exact Except.noConfusion h
      · next hc3 =>
        split at h
        · exact Except.noConfusion h
        · next hc4 =>
          split at h
          · next db₂ heq5 =>
            refine ⟨_, _, _, db₂, heq5, ?_⟩
            rw [if_neg hc3, if_neg hc4]
          · exact Except.noConfusion h

/-- A successful `refreshTokens` ends in a successful `storeRefreshToken`
on the store with the presented row revoked in place. -/
theorem refreshTokens_ok_store (env : Env) (now : Nat) (T : Jwt)
    (ua ip : Option String) (db : Db) (pair : TokenPair)
    (h : (refreshTokens env now T ua ip db).1 = .ok pair) :
    ∃ (uid : String) (tok : Jwt) (sid : Nat) (db₂ : Db),
      storeRefreshToken env now uid tok ua ip (revokeTokenById now sid db) = .ok db₂
      ∧ (refreshTokens env now T ua ip db).2 = db₂ := by
  simp only [refreshTokens, refreshTokensResume] at h ⊢
  split at h
  · exact Except.noConfusion h
  · next payload heq1 =>
    split at h
    · exact Except.noConfusion h
    · next st heq2 =>
      split at h
      · exact Except.noConfusion h
      · next hrev =>
        split at h
        · exact Except.noConfusion h
        · next hexp =>
          split at h
          · exact Except.noConfusion h
          · next status heq3 =>
            split at h
            · exact Except.noConfusion h
            · next hst =>
              split at h
              · next db₂ heq4 =>
                refine ⟨_, _, _, db₂, heq4, ?_⟩
                rw [if_neg hrev, if_neg hexp, if_neg hst]
              · exact Except.noConfusion h

/-- Concrete refresh token number `i` for the eviction scenario. -/
def c6Tok (i : Nat) : Jwt :=
  { payload := { userId := "u1", email := "a@b.c", type := "refresh" }
    secret := "rsecret", iat := i, exp := some 604800000 }

/-- Concrete live record number `i` (id and creation instant `i`). -/
def c6Rec (i : Nat) : RefreshTokenRecord :=
  { id := i, token := c6Tok i, userId := "u1", createdAt := i
    expiresAt := some 604800000, revokedAt := none
    userAgent := none, ipAddress := none }

/-- Owner of the ten live sessions in the eviction scenario. -/
def c6User : User :=
  { id := "u1", email := "a@b.c", passwordHash := some { plain := "Abcd1234!", salt := 0 }
    name := none, avatarUrl := none, theme := none, status := "active"
    authProvider := some "local", lastLoginAt := none, createdAt := 0 }

/-- Store holding exactly ten live tokens for one account. -/
def c6Db : Db :=
  { users := [c6User]
    refreshTokens := [c6Rec 1, c6Rec 2, c6Rec 3, c6Rec 4, c6Rec 5, c6Rec 6, c6Rec 7,
      c6Rec 8, c6Rec 9, c6Rec 10]
    nextId := 11 }

/-- Expected store after persisting the 11th token: the oldest row
(createdAt 1) evicted, the new row appended. -/
def c6DbAfter : Db :=
  { users := [c6User]
    refreshTokens := [c6Rec 2, c6Rec 3, c6Rec 4, c6Rec 5, c6Rec 6, c6Rec 7, c6Rec 8,
      c6Rec 9, c6Rec 10,
      { id := 11, token := c6Tok 11, userId := "u1", createdAt := 11
        expiresAt := some 604800011, revokedAt := none
        userAgent := none, ipAddress := none }]
    nextId := 12 }

/-- C6: after a successful `register`, `login` or `refreshTokens` each
account has at most 10 live refresh-token records (given the cap held
before and the store is well-formed on row ids); and persisting an 11th
live token for an account holding 10 live tokens leaves exactly 10 live
tokens with the oldest (by creation time) evicted. -/
theorem c6_live_token_cap :
    (∀ (env : Env) (now salt : Nat) (data : RegisterInput) (ua ip : Option String)
        (db : Db) (res : AuthResult),
      (db.refreshTokens.map (·.id)).Nodup →
      (∀ r ∈ db.refreshTokens, r.id < db.nextId) →
      (∀ u, liveCount now u db ≤ 10) →
      (register env now salt data ua ip db).1 = .ok res →
      ∀ u, liveCount now u (register env now salt data ua ip db).2 ≤ 10)
    ∧ (∀ (env : Env) (now : Nat) (data : LoginInput) (ua ip : Option String)
        (db : Db) (res : AuthResult),
      (db.refreshTokens.map (·.id)).Nodup →
      (∀ r ∈ db.refreshTokens, r.id < db.nextId) →
      (∀ u, liveCount now u db ≤ 10) →
      (login env now data ua ip db).1 = .ok res →
      ∀ u, liveCount now u (login env now data ua ip db).2 ≤ 10)
    ∧ (∀ (env : Env) (now : Nat) (T : Jwt) (ua ip : Option String)
        (db : Db) (pair : TokenPair),
      (db.refreshTokens.map (·.id)).Nodup →
      (∀ r ∈ db.refreshTokens, r.id < db.nextId) →
      (∀ u, liveCount now u db ≤ 10) →
      (refreshTokens env now T ua ip db).1 = .ok pair →
      ∀ u, liveCount now u (refreshTokens env now T ua ip db).2 ≤ 10)
    ∧ (storeRefreshToken testEnv 11 "u1" (c6Tok 11) none none c6Db = .ok c6DbAfter
       ∧ liveCount 11 "u1" c6Db = 10
       ∧ liveCount 11 "u1" c6DbAfter = 10
       ∧ c6Db.refreshTokens.map (·.createdAt) = [1, 2, 3, 4, 5, 6, 7, 8, 9, 10]
       ∧ c6DbAfter.refreshTokens.map (·.createdAt) = [2, 3, 4, 5, 6, 7, 8, 9, 10, 11]) := by
  have main : ∀ (env : Env) (now : Nat) (uid : String) (tok : Jwt)
      (ua ip : Option String) (dbIn db₂ : Db) (db : Db),
      dbIn.refreshTokens = db.refreshTokens →
      db.nextId ≤ dbIn.nextId →
      (db.refreshTokens.map (·.id)).Nodup →
      (∀ r ∈ db.refreshTokens, r.id < db.nextId) →
      (∀ u, liveCount now u db ≤ 10) →
      storeRefreshToken env now uid tok ua ip dbIn = .ok db₂ →
      ∀ u, liveCount now u db₂ ≤ 10 := by
    intro env now uid tok ua ip dbIn db₂ db htoks hnext hids hbound hpre hstore u
    by_cases hu : u = uid
    · subst hu
      calc liveCount now u db₂
          ≤ db₂.refreshTokens.countP (fun r => r.userId == u && r.revokedAt == none) :=
            liveCount_le_unrevoked now u db₂
        _ ≤ 10 := storeRefreshToken_cap env now u tok ua ip dbIn db₂ hstore
    · have hother := storeRefreshToken_other_user env now uid tok ua ip dbIn db₂
        (by rw [htoks]; exact hids)
        (fun r hr => by
          rw [htoks] at hr
          exact lt_of_lt_of_le (hbound r hr) hnext)
        hstore
        (fun r => r.userId == u && liveRecord now r)
        (fun r hr => by
          simp only [Bool.and_eq_true, beq_iff_eq] at hr
          rw [hr.1]
          exact hu)
      show List.countP _ db₂.refreshTokens ≤ 10
      rw [hother, htoks]
      exact hpre u
  refine ⟨?_, ?_, ?_, ?_, ?_, ?_, ?_, ?_⟩
  · intro env now salt data ua ip db res hids hbound hpre hok u
    obtain ⟨uid, tok, users', db₂, hstore, hdb2⟩ :=
      register_ok_store env now salt data ua ip db res hok
    rw [hdb2]
    exact main env now uid tok ua ip
      { users := users', refreshTokens := db.refreshTokens, nextId := db.nextId + 1 }
      db₂ db rfl (Nat.le_succ _) hids hbound hpre hstore u
  · intro env now data ua ip db res hids hbound hpre hok u
    obtain ⟨uid, tok, users', db₂, hstore, hdb2⟩ :=
      login_ok_store env now data ua ip db res hok
    rw [hdb2]
    exact main env now uid tok ua ip
      { users := users', refreshTokens := db.refreshTokens, nextId := db.nextId }
      db₂ db rfl (Nat.le_refl _) hids hbound hpre hstore u
  · intro env now T ua ip db pair hids hbound hpre hok u
    obtain ⟨uid, tok, sid, db₂, hstore, hdb2⟩ :=
      refreshTokens_ok_store env now T ua ip db pair hok
    rw [hdb2]
    have hrevids : ((revokeTokenById now sid db).refreshTokens.map (·.id)).Nodup := by
      rw [revokeTokenById_ids]; exact hids
    have hrevbound : ∀ r ∈ (revokeTokenById now sid db).refreshTokens,
        r.id < (revokeTokenById now sid db).nextId := by
      intro r hr
      simp only [revokeTokenById, List.mem_map] at hr
      obtain ⟨x, hx, rfl⟩ := hr
      by_cases hxi : (x.id == sid) = true
      · rw [if_pos hxi]
        exact hbound x hx
      · rw [if_neg hxi]
        exact hbound x hx
    have hrevpre : ∀ u', liveCount now u' (revokeTokenById now sid db) ≤ 10 :=
      fun u' => le_trans (liveCount_revokeTokenById_le now now sid u' db) (hpre u')
    by_cases hu : u = uid
    · subst hu
      calc liveCount now u db₂
          ≤ db₂.refreshTokens.countP (fun r => r.userId == u && r.revokedAt == none) :=
            liveCount_le_unrevoked now u db₂
        _ ≤ 10 := storeRefreshToken_cap env now u tok ua ip _ db₂ hstore
    · have hother := storeRefreshToken_other_user env now uid tok ua ip
        (revokeTokenById now sid db) db₂ hrevids hrevbound hstore
        (fun r => r.userId == u && liveRecord now r)
        (fun r hr => by
          simp only [Bool.and_eq_true, beq_iff_eq] at hr
          rw [hr.1]
          exact hu)
      show List.countP _ db₂.refreshTokens ≤ 10
      rw [hother]
      exact hrevpre u
  · rfl
  · rfl
  · rfl
  · rfl
  · rfl

/-- C6 witness: a successful login on a concrete empty-session store keeps
the account at no more than 10 live tokens. -/
theorem c6_witness :
    liveCount 5 "u1"
      (login testEnv 5 { email := "a@b.c", password := "Abcd1234!" } none none c3Db).2
      ≤ 10 := by
  have h := c6_live_token_cap.2.1 testEnv 5
    { email := "a@b.c", password := "Abcd1234!" } none none c3Db
    { user := { id := "u1", email := "a@b.c", passwordHash := none
                name := none, avatarUrl := none, theme := none
                status := "active", authProvider := some "local"
                lastLoginAt := none, createdAt := 0 }
      tokens := generateTokenPair testEnv 5 "u1" "a@b.c" }
    (by decide) (by decide) (fun u => by simp [liveCount, c3Db])
    (by rfl)
  exact h "u1"

/-! ## C1 — refresh rotation and theft detection -/

/-- A revoked row found by a lookup is still found, unchanged, after a
successful `storeRefreshToken` (the eviction step only deletes unrevoked
rows). -/
theorem storeRefreshToken_find_preserved (env : Env) (now : Nat) (uid : String)
    (token : Jwt) (ua ip : Option String) (db db₂ : Db)
    (p : RefreshTokenRecord → Bool) (r : RefreshTokenRecord)
    (h : storeRefreshToken env now uid token ua ip db = .ok db₂)
    (hfind : db.refreshTokens.find? p = some r)
    (hrev : r.revokedAt.isSome = true)
    (hids : (db.refreshTokens.map (·.id)).Nodup)
    (hbound : ∀ x ∈ db.refreshTokens, x.id < db.nextId) :
    db₂.refreshTokens.find? p = some r := by
  unfold storeRefreshToken at h
  split at h
  · exact Except.noConfusion h
  · injection h with h
    subst h
    simp only []
    set rec : RefreshTokenRecord :=
      { id := db.nextId, token := token, userId := uid, createdAt := now
        expiresAt := getExpirationDate env.JWT_REFRESH_EXPIRES_IN now
        revokedAt := none, userAgent := ua, ipAddress := ip } with hrec
    set L : List RefreshTokenRecord := db.refreshTokens ++ [rec] with hL
    set P : RefreshTokenRecord → Bool :=
      fun x => x.userId == uid && x.revokedAt == none with hP
    set D := (sortByCreatedDesc (L.filter P)).drop 10 with hD
    have hLids : (L.map (·.id)).Nodup := by
      rw [hL, List.map_append, List.nodup_append]
      refine ⟨hids, List.nodup_singleton _, ?_⟩
      intro i hi hi1
      simp only [List.map_cons, List.map_nil, List.mem_singleton] at hi1
      obtain ⟨r0, hr0, hr0i⟩ := List.mem_map.mp hi
      subst hi1
      exact absurd (hr0i ▸ hbound r0 hr0) (by simp [hrec])
    have hfindL : L.find? p = some r := by
      rw [hL, List.find?_append, hfind]
      rfl
    have hrL : r ∈ L := List.mem_of_find?_eq_some hfindL
    have hQ : (!(D.any fun t => t.id == r.id)) = true := by
      rw [Bool.not_eq_true', List.any_eq_false]
      intro d hd hdi
      have hdf : d ∈ L.filter P := (sortByCreatedDesc_perm _).subset
        (List.mem_of_mem_drop hd)
      have hdP := List.of_mem_filter hdf
      have hdL : d ∈ L := List.mem_of_mem_filter hdf
      have : d = r := List.inj_on_of_nodup_map hLids hdL hrL (by simpa using hdi)
      subst this
      rw [hP] at hdP
      simp only [Bool.and_eq_true, beq_iff_eq] at hdP
      rw [hdP.2] at hrev
      exact Bool.noConfusion hrev
    exact find_filter_stable p _ L r hfindL hQ

/-- `revokeTokenById` preserves the token column. -/
theorem revokeTokenById_tokens (t : Nat) (id : Nat) (db : Db) :
    (revokeTokenById t id db).refreshTokens.map (·.token) =
      db.refreshTokens.map (·.token) := by
  simp only [revokeTokenById, List.map_map]
  congr 1
  funext x
  by_cases hx : (x.id == id) = true <;> simp [Function.comp, hx]

/-- Short-lived refresh token for the C1 counterexample (expires at 100). -/
def c1T : Jwt :=
  { payload := { userId := "u1", email := "a@b.c", type := "refresh" }
    secret := "rsecret", iat := 0, exp := some 100 }

/-- A second, long-lived refresh token on the same account. -/
def c1U : Jwt :=
  { payload := { userId := "u1", email := "a@b.c", type := "refresh" }
    secret := "rsecret", iat := 1, exp := some 604800000 }

/-- Store for the C1 counterexample: one active account, two live tokens. -/
def c1Db : Db :=
  { users := [c6User]
    refreshTokens :=
      [{ id := 1, token := c1T, userId := "u1", createdAt := 0
         expiresAt := some 604800000, revokedAt := none
         userAgent := none, ipAddress := none },
       { id := 2, token := c1U, userId := "u1", createdAt := 1
         expiresAt := some 604800000, revokedAt := none
         userAgent := none, ipAddress := none }]
    nextId := 3 }

/-- C1 counterexample: with a second live token on the account, rotating T
once succeeds (T' ≠ T), and a second call with T made after T's embedded
expiry still fails 401 — but at signature verification, leaving the other
live token un-revoked.  The claim's "any subsequent call … sets revokedAt
on every remaining live refresh-token record" is therefore false. -/
theorem c1_counterexample :
    (refreshTokens testEnv 50 c1T none none c1Db).1 =
      .ok (generateTokenPair testEnv 50 "u1" "a@b.c")
    ∧ (generateTokenPair testEnv 50 "u1" "a@b.c").refreshToken ≠ c1T
    ∧ (refreshTokens testEnv 150 c1T none none
        (refreshTokens testEnv 50 c1T none none c1Db).2).1 =
      .error { message := "Invalid or expired refresh token", statusCode := 401 }
    ∧ ∃ rec ∈ (refreshTokens testEnv 150 c1T none none
        (refreshTokens testEnv 50 c1T none none c1Db).2).2.refreshTokens,
        rec.userId = "u1" ∧ rec.revokedAt = none ∧ liveRecord 150 rec = true := by
  refine ⟨rfl, by decide, rfl, ?_⟩
  decide

/-- C1 (amended): for a refresh token T of an active account stored as a
live record (with fresh rotation output), the first `refreshTokens(T)`
succeeds and returns a pair whose refresh token differs from T; any
subsequent call with T made while T still verifies fails 401 with the
theft-detection message and, before failing, sets `revokedAt` on every
remaining record of that account. -/
theorem c1_refresh_rotation (env : Env) (t1 : Nat) (T : Jwt)
    (ua ip ua2 ip2 : Option String) (db : Db) (payload : JwtPayload)
    (r : RefreshTokenRecord) (user : User)
    (hverify : verifyRefreshToken env t1 T = some payload)
    (hfind : db.refreshTokens.find? (fun rec => rec.token == T) = some r)
    (hlive : liveRecord t1 r = true)
    (huser : db.users.find? (fun u => u.id == r.userId) = some user)
    (hstatus : user.status = "active")
    (hids : (db.refreshTokens.map (·.id)).Nodup)
    (hbound : ∀ rec ∈ db.refreshTokens, rec.id < db.nextId)
    (hfresh : ∀ rec ∈ db.refreshTokens,
      rec.token ≠ generateRefreshToken env t1 payload.userId payload.email) :
    ∃ pair db₂,
      refreshTokens env t1 T ua ip db = (.ok pair, db₂)
      ∧ pair.refreshToken ≠ T
      ∧ (∀ (t2 : Nat) (payload2 : JwtPayload),
          verifyRefreshToken env t2 T = some payload2 →
          (refreshTokens env t2 T ua2 ip2 db₂).1 =
            .error { message := "Refresh token has been revoked", statusCode := 401 }
          ∧ (∀ rec ∈ (refreshTokens env t2 T ua2 ip2 db₂).2.refreshTokens,
              rec.userId = r.userId → rec.revokedAt.isSome)) := by
  have hrev : r.revokedAt = none := by
    have := hlive
    unfold liveRecord at this
    cases h : r.revokedAt with
    | none => rfl
    | some t => rw [h] at this; simp at this
  have hexp : dateBefore r.expiresAt t1 = false := by
    have := hlive
    unfold liveRecord dateAfter at this
    cases h : r.expiresAt with
    | none => rw [h] at this; simp at this
    | some a =>
      rw [h] at this
      simp at this
      simp [dateBefore]
      omega
  have hrT := List.find?_some hfind
  have hrmem : r ∈ db.refreshTokens := List.mem_of_find?_eq_some hfind
  have hany : ((revokeTokenById t1 r.id db).refreshTokens.any
      (fun x => x.token ==
        (generateTokenPair env t1 payload.userId payload.email).refreshToken)) = false := by
    rw [List.any_eq_false]
    intro x hx
    have hxtok : x.token ∈ db.refreshTokens.map (·.token) := by
      rw [← revokeTokenById_tokens t1 r.id db]
      exact List.mem_map_of_mem _ hx
    obtain ⟨x0, hx0, hx0t⟩ := List.mem_map.mp hxtok
    simp only [beq_iff_eq]
    rw [← hx0t]
    exact hfresh x0 hx0
  obtain ⟨db₂, hstore⟩ := storeRefreshToken_ok_exists env t1 payload.userId
    (generateTokenPair env t1 payload.userId payload.email).refreshToken ua ip
    (revokeTokenById t1 r.id db) hany
  have hfirst : refreshTokens env t1 T ua ip db =
      (.ok (generateTokenPair env t1 payload.userId payload.email), db₂) := by
    simp [refreshTokens, hverify, hfind, refreshTokensResume, hrev, hexp, huser,
      hstatus, hstore]
  refine ⟨generateTokenPair env t1 payload.userId payload.email, db₂, hfirst, ?_, ?_⟩
  · intro heq
    have : r.token = T := by simpa using hrT
    exact hfresh r hrmem (by rw [this, ← heq]; rfl)
  · intro t2 payload2 hver2
    have hfind1 : (revokeTokenById t1 r.id db).refreshTokens.find?
        (fun rec => rec.token == T) = some { r with revokedAt := some t1 } := by
      unfold revokeTokenById
      rw [find_map_pres _ _ (fun x => by
        by_cases hx : (x.id == r.id) = true <;> simp [hx]) _, hfind]
      simp
    have hfind2 : db₂.refreshTokens.find? (fun rec => rec.token == T) =
        some { r with revokedAt := some t1 } := by
      refine storeRefreshToken_find_preserved env t1 payload.userId _ ua ip
        (revokeTokenById t1 r.id db) db₂ _ _ hstore hfind1 (by simp) ?_ ?_
      · rw [revokeTokenById_ids]; exact hids
      · intro x hx
        simp only [revokeTokenById, List.mem_map] at hx
        obtain ⟨y, hy, rfl⟩ := hx
        by_cases hyi : (y.id == r.id) = true
        · rw [if_pos hyi]; exact hbound y hy
        · rw [if_neg hyi]; exact hbound y hy
    have hsecond : refreshTokens env t2 T ua2 ip2 db₂ =
        (.error { message := "Refresh token has been revoked", statusCode := 401 },
         revokeAllUserTokens t2 r.userId db₂) := by
      simp [refreshTokens, hver2, hfind2, refreshTokensResume]
    rw [hsecond]
    exact ⟨rfl, revokeAll_none_live t2 r.userId db₂⟩

/-- C1 witness: rotation and theft detection on the concrete two-token
store, with the second call inside T's validity window. -/
theorem c1_witness :
    ∃ pair db₂,
      refreshTokens testEnv 50 c1T none none c1Db = (.ok pair, db₂)
      ∧ pair.refreshToken ≠ c1T
      ∧ (refreshTokens testEnv 60 c1T none none db₂).1 =
          .error { message := "Refresh token has been revoked", statusCode := 401 }
      ∧ ∀ rec ∈ (refreshTokens testEnv 60 c1T none none db₂).2.refreshTokens,
          rec.userId = "u1" → rec.revokedAt.isSome := by
  obtain ⟨pair, db₂, h1, h2, h3⟩ := c1_refresh_rotation testEnv 50 c1T
    none none none none c1Db c1T.payload
    { id := 1, token := c1T, userId := "u1", createdAt := 0
      expiresAt := some 604800000, revokedAt := none
      userAgent := none, ipAddress := none }
    c6User
    (by decide) (by decide) (by decide) (by decide) (by decide) (by decide)
    (by decide) (by decide)
  exact ⟨pair, db₂, h1, h2, (h3 60 c1T.payload (by decide)).1,
    (h3 60 c1T.payload (by decide)).2⟩

/-! ## C2 — concurrent refresh calls with the same token -/

/-- The live row both concurrent calls read. -/
def c2R : RefreshTokenRecord :=
  { id := 1, token := c1T, userId := "u1", createdAt := 0
    expiresAt := some 604800000, revokedAt := none
    userAgent := none, ipAddress := none }

/-- C2: the code's rotation is read-then-unconditional-update, not a
transaction or a compare-and-swap on `revokedAt IS NULL`.  Interleaving
two `refreshTokens` calls on the same live token at their first await
point (both read the row before either revokes it) makes BOTH calls
complete as successful rotations: call A reads the live row and finishes
its rotation; call B, resuming from its stale read of the same row, passes
the theft-detection check and also succeeds.  The last conjunct checks
that an uninterleaved call is exactly this read followed by this resume,
so the interleaving is made of the code's own steps. -/
theorem c2_concurrent_rotation_both_succeed :
    c1Db.refreshTokens.find? (fun rec => rec.token == c1T) = some c2R
    ∧ c2R.revokedAt = none
    ∧ (refreshTokensResume testEnv 10 c1T.payload c2R
        ((c1Db.users.find? (fun u => u.id == c2R.userId)).map (·.status))
        none none c1Db).1 = .ok (generateTokenPair testEnv 10 "u1" "a@b.c")
    ∧ (refreshTokensResume testEnv 20 c1T.payload c2R
        ((c1Db.users.find? (fun u => u.id == c2R.userId)).map (·.status))
        none none
        (refreshTokensResume testEnv 10 c1T.payload c2R
          ((c1Db.users.find? (fun u => u.id == c2R.userId)).map (·.status))
          none none c1Db).2).1 = .ok (generateTokenPair testEnv 20 "u1" "a@b.c")
    ∧ refreshTokens testEnv 10 c1T none none c1Db =
        refreshTokensResume testEnv 10 c1T.payload c2R
          ((c1Db.users.find? (fun u => u.id == c2R.userId)).map (·.status))
          none none c1Db := by
  exact ⟨rfl, rfl, rfl, rfl, rfl⟩

end Fold
